import Mathlib

/-!
Verification of the Tribol contact-interface kernel against its
natural-language specification.

The development shallowly embeds the C++ sources
`src/tribol/geom/GeomUtilities.cpp` and `src/tribol/mesh/CouplingScheme.cpp`.
The C++ `RealT` (double) is modelled by exact rational arithmetic `ℚ`.
Square roots (the C++ `magnitude` helper) never reach the outputs of the
functions under study: they are only compared against tolerances or against
each other, so every such comparison is embedded as the equivalent exact
comparison of squares (for nonnegative quantities `a < b ↔ a^2 < b^2`), which
matches the idealized real-number semantics of the code.  Array/pointer pairs
`(RealT* x, RealT* y, int n)` are modelled by `List Pt`.
-/

namespace Tribol

/-- A 2D point (the C++ code passes separate x/y coordinate arrays). -/
structure Pt where
  x : ℚ
  y : ℚ
deriving DecidableEq, Repr, Inhabited

/-- A 3D point. -/
structure Pt3 where
  x : ℚ
  y : ℚ
  z : ℚ
deriving DecidableEq, Repr, Inhabited

/-- 2D cross product (z component of the 3D cross product). -/
def crossP (u v : Pt) : ℚ := u.x * v.y - u.y * v.x

/-- 2D dot product. -/
def dotP (u v : Pt) : ℚ := u.x * v.x + u.y * v.y

/-- Pointwise difference (the vector from `b` to `a`). -/
def psub (a b : Pt) : Pt := ⟨a.x - b.x, a.y - b.y⟩

/-- Squared magnitude; the C++ `magnitude(dx,dy)` is `Real.sqrt` of this.
All uses in the embedded code compare magnitudes, which is done on squares. -/
def magSq (dx dy : ℚ) : ℚ := dx * dx + dy * dy

/-- Squared distance between two 2D points. -/
def distSq (a b : Pt) : ℚ := magSq (a.x - b.x) (a.y - b.y)

/-- Face-geometry error codes returned by the polygon routines
(`FaceGeomError` in the sources). -/
inductive FaceGeomError where
  | NO_FACE_GEOM_ERROR
  | INVALID_FACE_INPUT
  | FACE_ORIENTATION
  | DEGENERATE_OVERLAP
  | FACE_VERTEX_INDEX_EXCEEDS_OVERLAP_VERTICES
deriving DecidableEq, Repr, Inhabited

export FaceGeomError (NO_FACE_GEOM_ERROR INVALID_FACE_INPUT FACE_ORIENTATION
  DEGENERATE_OVERLAP FACE_VERTEX_INDEX_EXCEEDS_OVERLAP_VERTICES)

/-- `VertexAvgCentroid` (2D form): vertex-averaged centroid, the sum of the
coordinates divided by the vertex count.  (The C++ returns `false` for
`numVert == 0`; callers inside the geometry kernel never pass 0.) -/
def VertexAvgCentroid (p : List Pt) : Pt :=
  ⟨(p.map Pt.x).sum / p.length, (p.map Pt.y).sum / p.length⟩

/-- `VertexAvgCentroid` (3D form used by `PolyAreaCentroid`). -/
def VertexAvgCentroid3 (p : List Pt3) : Pt3 :=
  ⟨(p.map Pt3.x).sum / p.length, (p.map Pt3.y).sum / p.length,
   (p.map Pt3.z).sum / p.length⟩

/-- `Area3DTri`: area of a 3D triangle, `|1/2 * magCrossProd(u, v)|`.
`magCrossProd` is the square root of the sum of squares of the cross-product
components; the square root is irrational, so it is supplied as an explicit
function argument `sqrt` (the control flow of the callers does not depend on
its values). -/
def Area3DTri (sqrt : ℚ → ℚ) (a b c : Pt3) : ℚ :=
  let ux := b.x - a.x
  let uy := b.y - a.y
  let uz := b.z - a.z
  let vx := c.x - a.x
  let vy := c.y - a.y
  let vz := c.z - a.z
  let cx := uy * vz - uz * vy
  let cy := uz * vx - ux * vz
  let cz := ux * vy - uy * vx
  |((1 : ℚ) / 2) * sqrt (cx * cx + cy * cy + cz * cz)|

/-- `PolyAreaCentroid`: area-weighted centroid of a 3D polygon, computed by
fanning triangles about the vertex-averaged centroid.  Returns the C++ bool
(the failure flag) together with the centroid.  Mirrors the source exactly:
the only early `return false` is the `numVert == 0` check. -/
def PolyAreaCentroid (sqrt : ℚ → ℚ) (p : List Pt3) : Bool × Pt3 :=
  if p.length = 0 then (false, default)
  else
    let cPoly := VertexAvgCentroid3 p
    let n := p.length
    let tris := (List.range n).map (fun i =>
      let a := p.getD i default
      let b := p.getD ((i + 1) % n) default
      (a, b))
    let areas := tris.map (fun ab => Area3DTri sqrt ab.1 ab.2 cPoly)
    let area_sum := areas.sum
    let wx := (tris.zip areas).map (fun t =>
      (VertexAvgCentroid3 [t.1.1, t.1.2, cPoly]).x * t.2)
    let wy := (tris.zip areas).map (fun t =>
      (VertexAvgCentroid3 [t.1.1, t.1.2, cPoly]).y * t.2)
    let wz := (tris.zip areas).map (fun t =>
      (VertexAvgCentroid3 [t.1.1, t.1.2, cPoly]).z * t.2)
    (true, ⟨wx.sum / area_sum, wy.sum / area_sum, wz.sum / area_sum⟩)

/-- `Area2DPolygon`: sum of absolute triangle areas fanned about the
vertex-averaged centroid. -/
def Area2DPolygon (p : List Pt) : ℚ :=
  let c := VertexAvgCentroid p
  let n := p.length
  ((List.range n).map (fun i =>
    let a := p.getD i default
    let b := p.getD ((i + 1) % n) default
    |((1 : ℚ) / 2) * (a.x * (b.y - c.y) + b.x * (c.y - a.y) + c.x * (a.y - b.y))|)).sum

/-- `Point2DInTri`: barycentric point-in-triangle test with the 1e-12
coordinate snap.  In the C++ a degenerate (zero-determinant) triangle
produces non-finite barycentric coordinates and the final comparisons fail;
the exact embedding makes that case an explicit `false`. -/
def Point2DInTri (p t0 t1 t2 : Pt) : Bool :=
  let e1x := t1.x - t0.x
  let e1y := t1.y - t0.y
  let e2x := t2.x - t0.x
  let e2y := t2.y - t0.y
  let p1x := p.x - t0.x
  let p1y := p.y - t0.y
  let e11 := e1x * e1x + e1y * e1y
  let e12 := e1x * e2x + e1y * e2y
  let e22 := e2x * e2x + e2y * e2y
  let p1e1 := p1x * e1x + p1y * e1y
  let p1e2 := p1x * e2x + p1y * e2y
  let det := e11 * e22 - e12 * e12
  if det = 0 then false
  else
    let invDet := 1 / det
    let u := invDet * (e22 * p1e1 - e12 * p1e2)
    let v := invDet * (e11 * p1e2 - e12 * p1e1)
    let u := if |u| < (1 : ℚ) / 10 ^ 12 then 0 else u
    let v := if |v| < (1 : ℚ) / 10 ^ 12 then 0 else v
    decide (0 ≤ u ∧ 0 ≤ v ∧ u + v ≤ 1)

/-- `Point2DInFace`: point-in-polygon by fanning triangles between each edge
and the (caller-supplied) vertex-averaged centroid; a triangle is used
directly when the face has 3 vertices. -/
def Point2DInFace (p : Pt) (poly : List Pt) (c : Pt) : Bool :=
  if poly.length = 3 then
    Point2DInTri p (poly.getD 0 default) (poly.getD 1 default) (poly.getD 2 default)
  else
    (List.range poly.length).any (fun i =>
      let a := poly.getD i default
      let b := poly.getD ((i + 1) % poly.length) default
      Point2DInTri p a b c)

/-- `CheckPolyOrientation`: all segment normals (rotated-left edge vectors)
point toward the vertex-averaged centroid, i.e. the vertex order is CCW
convex from the centroid's viewpoint. -/
def CheckPolyOrientation (p : List Pt) : Bool :=
  let c := VertexAvgCentroid p
  (List.range p.length).all (fun i =>
    let a := p.getD i default
    let b := p.getD ((i + 1) % p.length) default
    let nrmlx := -(b.y - a.y)
    let nrmly := b.x - a.x
    decide (0 ≤ (c.x - a.x) * nrmlx + (c.y - a.y) * nrmly))

/-- `SegmentIntersection2D`: unique segment/segment intersection with
duplicate-vertex snapping.  Returns `(intersects, point, duplicate)`.
Magnitude comparisons from the source (`distMag[i] < distMin`,
`distRatio < tol`) are embedded on squares.  The C++ leaves `idMin`
uninitialized before the minimum search; whenever the routine reaches that
search an update always occurs (the intersection point lies on segment 1, so
its distance to the nearer endpoint of segment 1 is below the initial
minimum); the embedding seeds the fold with index 0. -/
def SegmentIntersection2D (pA1 pB1 pA2 pB2 : Pt) (interior : Option (List Bool))
    (tol : ℚ) : Bool × Pt × Bool :=
  let lambdaX1 := pB1.x - pA1.x
  let lambdaY1 := pB1.y - pA1.y
  let lambdaX2 := pB2.x - pA2.x
  let lambdaY2 := pB2.y - pA2.y
  let seg1MagSq := magSq lambdaX1 lambdaY1
  let seg2MagSq := magSq lambdaX2 lambdaY2
  let det := -lambdaX1 * lambdaY2 + lambdaX2 * lambdaY1
  let detTol := (1 : ℚ) / 10 ^ 12
  if -detTol < det ∧ det < detTol then (false, ⟨0, 0⟩, false)
  else
    let invDet := 1 / det
    let rX := pA1.x - pA2.x
    let rY := pA1.y - pA2.y
    let tA := invDet * (rX * lambdaY2 - rY * lambdaX2)
    let tB := invDet * (rX * lambdaY1 - rY * lambdaX1)
    if tA < 0 ∨ tA > 1 ∨ tB < 0 ∨ tB > 1 then (false, ⟨0, 0⟩, false)
    else
      let x := pA1.x + lambdaX1 * tA
      let y := pA1.y + lambdaY1 * tA
      let verts := [pA1, pB1, pA2, pB2]
      let st := (List.range 4).foldl (fun (st : ℚ × ℕ × Pt) i =>
        let v := verts.getD i default
        let dSq := magSq (x - v.x) (y - v.y)
        if dSq < st.1 then (dSq, i, v) else st)
        (max seg1MagSq seg2MagSq, 0, default)
      let distMinSq := st.1
      let idMin := st.2.1
      let minVert := st.2.2
      let segSq := if idMin = 0 ∨ idMin = 1 then seg1MagSq else seg2MagSq
      if 0 < tol ∧ distMinSq < tol * tol * segSq then
        if (match interior with | none => true | some l => l.getD idMin false) then
          (false, minVert, true)
        else (true, ⟨x, y⟩, false)
      else (true, ⟨x, y⟩, false)

/-- `CheckPolySegs` loop bodies: `segsCollapseStep` collapses the second
vertex of a segment shorter than `tol` onto the first (`newIDs[ib] = i`,
with the `lambdaMag < tol` comparison embedded on squares);
`segsWriteStep` emits a surviving vertex (`newIDs[i] == i`), carrying the
source's `k > numNewPoints` overflow guard (`none` = error). -/
def segsCollapseStep (p : List Pt) (tol : ℚ) (ids : List ℕ) (i : ℕ) : List ℕ :=
  let n := p.length
  let ib := if i = n - 1 then 0 else i + 1
  let a := p.getD i default
  let b := p.getD ib default
  let lambdaSq := magSq (b.x - a.x) (b.y - a.y)
  if 0 < tol ∧ lambdaSq < tol * tol then ids.set ib i else ids

def segsWriteStep (p : List Pt) (newIDs : List ℕ) (numNewPoints : ℕ)
    (st : Option (List Pt)) (i : ℕ) : Option (List Pt) :=
  match st with
  | none => none
  | some acc =>
    if newIDs.getD i 0 = i then
      if acc.length > numNewPoints then none
      else some (acc ++ [p.getD i default])
    else some acc

/-- `CheckPolySegs`: collapse the second vertex of every segment shorter
than `tol` onto the first, count the surviving vertices and, when at least
3 survive, emit them in order (otherwise the output arrays stay unwritten
and the caller treats the overlap as degenerate). -/
def CheckPolySegs (p : List Pt) (tol : ℚ) : FaceGeomError × ℕ × List Pt :=
  let n := p.length
  let newIDs := (List.range n).foldl (segsCollapseStep p tol) (List.range n)
  let numNewPoints := ((List.range n).filter (fun i => newIDs.getD i 0 = i)).length
  if numNewPoints < 3 then (NO_FACE_GEOM_ERROR, numNewPoints, [])
  else
    match (List.range n).foldl (segsWriteStep p newIDs numNewPoints) (some []) with
    | none => (FACE_VERTEX_INDEX_EXCEEDS_OVERLAP_VERTICES, numNewPoints, [])
    | some survivors => (NO_FACE_GEOM_ERROR, numNewPoints, survivors)

/-- Exact comparison `a / √s > b / √t` for `s, t > 0`, used to embed the
`cosTheta > cosThetaMax` comparisons of `PolyReorder` (the C++ divides by the
product of segment magnitudes; the exact embedding compares by sign analysis
and squaring, which is equivalent over the reals). -/
def cosValGtQ (a s b t : ℚ) : Bool :=
  if 0 ≤ a then
    if 0 ≤ b then decide (b * b * s < a * a * t) else true
  else
    if 0 ≤ b then false else decide (a * a * t < b * b * s)

/-- First stage of `PolyReorder`: find the first `j ≥ 1` such that all other
vertices lie (weakly) on one side of the segment `(v0, vj)` and the segment
normal points toward the centroid (`prod > 0`). -/
def polyReorderFirstSeg (p : List Pt) (c : Pt) : Option ℕ :=
  let n := p.length
  (List.range' 1 (n - 1)).find? (fun j =>
    let p0 := p.getD 0 default
    let pj := p.getD j default
    let nrmlx := -(pj.y - p0.y)
    let nrmly := pj.x - p0.x
    let projs := ((List.range n).filter (fun k => k ≠ 0 ∧ k ≠ j)).map (fun k =>
      ((p.getD k default).x - p0.x) * nrmlx + ((p.getD k default).y - p0.y) * nrmly)
    let neg := projs.any (fun q => decide (q < 0))
    let pos := projs.any (fun q => decide (0 < q))
    let prod := nrmlx * (c.x - p0.x) + nrmly * (c.y - p0.y)
    (!neg || !pos) && decide (0 < prod))

/-- Greedy stage of `PolyReorder`: among the unassigned vertices
`j ∈ [2+i, n)` pick the one whose link vector from vertex `newIDs[i]` makes
the smallest angle with the reference segment (largest cosine), taking the
first strict improvement over the running maximum (initialized to -1).
The C++ leaves `jID` uninitialized; the embedding seeds it with `2+i`.
`polyReorderNextStep` is one comparison of the inner loop. -/
def polyReorderNextStep (p : List Pt) (ids : List ℕ) (pI : Pt)
    (refx refy refMagSq : ℚ) (st : ℚ × ℚ × ℕ) (j : ℕ) : ℚ × ℚ × ℕ :=
  let pj := p.getD (ids.getD j 0) default
  let lx := pj.x - pI.x
  let ly := pj.y - pI.y
  let linkMagSq := magSq lx ly
  let aj := lx * refx + ly * refy
  if cosValGtQ aj (refMagSq * linkMagSq) st.1 st.2.1 then
    (aj, refMagSq * linkMagSq, j)
  else st

def polyReorderNext (p : List Pt) (ids : List ℕ) (i n : ℕ) : ℕ :=
  let pI := p.getD (ids.getD i 0) default
  let pIp := p.getD (ids.getD (i + 1) 0) default
  let refx := pIp.x - pI.x
  let refy := pIp.y - pI.y
  let refMagSq := magSq refx refy
  let st := (List.range' (2 + i) (n - (2 + i))).foldl
    (polyReorderNextStep p ids pI refx refy refMagSq) (-1, 1, 2 + i)
  st.2.2

/-- One iteration of `PolyReorder`'s outer greedy loop: place the picked
vertex at position `2 + i` by swapping ids. -/
def polyReorderSwapStep (p : List Pt) (n : ℕ) (ids : List ℕ) (i : ℕ) : List ℕ :=
  let jID := polyReorderNext p ids i n
  let swapID := ids.getD (2 + i) 0
  (ids.set (2 + i) (ids.getD jID 0)).set jID swapID

/-- `PolyReorder`: reorder an unordered convex vertex cloud into CCW order,
keeping vertex 0 first.  Returns the input unchanged when fewer than 3
points are given (the C++ returns `false` without touching the arrays). -/
def PolyReorder (p : List Pt) : List Pt :=
  let n := p.length
  if n < 3 then p
  else
    let c := VertexAvgCentroid p
    let ids1 : List ℕ :=
      match polyReorderFirstSeg p c with
      | some id1 => ((List.range n).set 1 id1).set id1 1
      | none => List.range n
    let idsF := (List.range (n - 3)).foldl (polyReorderSwapStep p n) ids1
    (List.range n).map (fun i => p.getD (idsF.getD i 0) default)

/-- Number of `true` entries; the C++ `numVAI` / `numVBI` counters. -/
def countTrue (l : List Bool) : ℕ := (l.filter id).length

/-- Which vertices of polygon `a` lie inside polygon `b`
(`Point2DInFace` against `b`'s vertex-averaged centroid); the C++ stores the
index `i` in `interiorVAId[i]`, embedded as a `Bool` per vertex. -/
def interiorFlags (a b : List Pt) : List Bool :=
  let cB := VertexAvgCentroid b
  a.map (fun v => Point2DInFace v b cB)

/-- Coincident interior-vertex dedup of `Intersection2DPolygon`: for every
vertex of A interior to B, every remaining interior vertex of B within
distance 1e-15 (compared on squares: `distSq < 1e-30`) loses its interior
designation and the B interior count is decremented.
`dedupInnerStep` / `dedupOuterStep` are the loop bodies over B and A. -/
def dedupInnerStep (a b : List Pt) (i : ℕ) (st2 : List Bool × ℕ) (j : ℕ) :
    List Bool × ℕ :=
  if st2.1.getD j false then
    if distSq (a.getD i default) (b.getD j default) < (1 : ℚ) / 10 ^ 30 then
      (st2.1.set j false, st2.2 - 1)
    else st2
  else st2

def dedupOuterStep (a b : List Pt) (flagsA : List Bool) (st : List Bool × ℕ)
    (i : ℕ) : List Bool × ℕ :=
  if flagsA.getD i false then
    (List.range b.length).foldl (dedupInnerStep a b i) st
  else st

/-- The full coincident interior-vertex dedup: fold the outer step over the
vertices of A, starting from B's interior flags and their count. -/
def dedupInteriorB (a b : List Pt) (flagsA flagsB0 : List Bool) : List Bool × ℕ :=
  (List.range a.length).foldl (dedupOuterStep a b flagsA)
    (flagsB0, countTrue flagsB0)

/-- The segment/segment intersection loop of `Intersection2DPolygon`: all
edge pairs of A and B are processed (the source's `checkA`/`checkB` guards
are hard-wired `true`); the counter `interId` (the length of the accumulated
list) is guarded against `max_intersections = 16`, returning `none`
(= `DEGENERATE_OVERLAP`) on overflow.  `segInnerStep` processes one edge
pair; `segOuterStep` one edge of A against all edges of B; `segSegLoop` is
the full double loop. -/
def segInnerStep (a b : List Pt) (flagsA flagsB : List Bool) (posTol : ℚ)
    (ia : ℕ) (st2 : Option (List (Bool × Pt))) (jb : ℕ) :
    Option (List (Bool × Pt)) :=
  match st2 with
  | none => none
  | some acc2 =>
    if acc2.length ≥ 16 then none
    else
      let nA := a.length
      let nB := b.length
      let vA1 := ia
      let vA2 := if ia = nA - 1 then 0 else ia + 1
      let vB1 := jb
      let vB2 := if jb = nB - 1 then 0 else jb + 1
      let intr := [flagsA.getD vA1 false, flagsA.getD vA2 false,
                   flagsB.getD vB1 false, flagsB.getD vB2 false]
      let r := SegmentIntersection2D (a.getD vA1 default) (a.getD vA2 default)
                 (b.getD vB1 default) (b.getD vB2 default) (some intr) posTol
      some (acc2 ++ [(r.1, r.2.1)])

def segOuterStep (a b : List Pt) (flagsA flagsB : List Bool) (posTol : ℚ)
    (st : Option (List (Bool × Pt))) (ia : ℕ) : Option (List (Bool × Pt)) :=
  (List.range b.length).foldl (segInnerStep a b flagsA flagsB posTol ia) st

def segSegLoop (a b : List Pt) (flagsA flagsB : List Bool) (posTol : ℚ) :
    Option (List (Bool × Pt)) :=
  (List.range a.length).foldl (segOuterStep a b flagsA flagsB posTol) (some [])

/-- The interior-vertex fill loops of `Intersection2DPolygon`: append each
vertex still flagged interior, guarding the write index `k` (the accumulated
length) against `max_identified_points = 16`; overflow gives `none`
(= `FACE_VERTEX_INDEX_EXCEEDS_OVERLAP_VERTICES`). -/
def fillStep (poly : List Pt) (flags : List Bool) (st : Option (List Pt))
    (i : ℕ) : Option (List Pt) :=
  match st with
  | none => none
  | some acc =>
    if flags.getD i false then
      if acc.length > 16 then none
      else some (acc ++ [poly.getD i default])
    else some acc

/-- The interior-vertex fill loop over one polygon. -/
def fillInterior (poly : List Pt) (flags : List Bool) (acc0 : Option (List Pt)) :
    Option (List Pt) :=
  (List.range poly.length).foldl (fillStep poly flags) acc0

/-- Result of `Intersection2DPolygon`: the error code and the values of the
out-parameters `area`, `numPolyVert`, `polyX/polyY` (the polygon list is `[]`
on the paths where the C++ leaves the output arrays unwritten, and `area`
and `numPolyVert` are 0 on the paths where the C++ leaves them unassigned). -/
structure InterResult where
  err : FaceGeomError
  area : ℚ
  numPolyVert : ℕ
  poly : List Pt
deriving DecidableEq, Repr, Inhabited

/-- `Intersection2DPolygon`: convex polygon/polygon clipping.
Stages: input validity, optional orientation check, point-in-polygon
classification (with containment fast paths), coincident interior-vertex
dedup, segment/segment intersections, vertex collection, `PolyReorder`,
`CheckPolySegs` edge collapse, and the final `Area2DPolygon`. -/
def Intersection2DPolygon (A B : List Pt) (posTol lenTol : ℚ)
    (orientCheck : Bool) : InterResult :=
  if A.length < 3 ∨ B.length < 3 then ⟨INVALID_FACE_INPUT, 0, 0, []⟩
  else if orientCheck ∧ (¬CheckPolyOrientation A ∨ ¬CheckPolyOrientation B) then
    ⟨FACE_ORIENTATION, 0, 0, []⟩
  else
    let flagsA := interiorFlags A B
    let numVAI := countTrue flagsA
    if numVAI = A.length then ⟨NO_FACE_GEOM_ERROR, Area2DPolygon A, A.length, A⟩
    else
      let flagsB := interiorFlags B A
      if countTrue flagsB = B.length then
        ⟨NO_FACE_GEOM_ERROR, Area2DPolygon B, B.length, B⟩
      else
        let ded := dedupInteriorB A B flagsA flagsB
        let flagsB' := ded.1
        let numVBI := ded.2
        match segSegLoop A B flagsA flagsB' posTol with
        | none => ⟨DEGENERATE_OVERLAP, 0, 0, []⟩
        | some inters =>
          let interPts := (inters.filter (fun r => r.1)).map (fun r => r.2)
          let numSegInter := interPts.length
          if numSegInter = 0 ∧ numVBI = 0 ∧ numVAI = 0 then
            ⟨NO_FACE_GEOM_ERROR, 0, 0, []⟩
          else
            let numPolyVert := numSegInter + numVAI + numVBI
            match fillInterior B flagsB' (fillInterior A flagsA (some interPts)) with
            | none => ⟨FACE_VERTEX_INDEX_EXCEEDS_OVERLAP_VERTICES, 0, numPolyVert, []⟩
            | some collected =>
              if numPolyVert > 2 then
                let reordered := PolyReorder collected
                let cps := CheckPolySegs reordered lenTol
                if cps.1 ≠ NO_FACE_GEOM_ERROR then ⟨cps.1, 0, numPolyVert, []⟩
                else if cps.2.1 < 3 then ⟨NO_FACE_GEOM_ERROR, 0, numPolyVert, []⟩
                else ⟨NO_FACE_GEOM_ERROR, Area2DPolygon cps.2.2, cps.2.1, cps.2.2⟩
              else ⟨NO_FACE_GEOM_ERROR, 0, numPolyVert, []⟩

/-- Indices of the input arrays read by `Vertex2DOrderToCCW` for a given
`numVert`: the initial `x[0]`, then `x[i]` for the loop
`for (int i = numVert; i > 0; --i)`. -/
def Vertex2DOrderToCCW_readIndices (numVert : ℕ) : List ℕ :=
  if numVert = 0 then [] else 0 :: (List.range numVert).map (fun j => numVert - j)

/-- `Vertex2DOrderToCCW`: writes `(xTemp[0], yTemp[0]) = (x[0], y[0])`, then
`(xTemp[k], yTemp[k]) = (x[i], y[i])` for `i = numVert, numVert-1, ..., 1`
with `k = 1, 2, ...`.  The returned list holds the written entries in slot
order `k = 0, 1, ..., numVert`. -/
def Vertex2DOrderToCCW (x y : ℕ → ℚ) (numVert : ℕ) : List (ℚ × ℚ) :=
  if numVert = 0 then []
  else (x 0, y 0) :: (List.range numVert).map (fun j =>
    (x (numVert - j), y (numVert - j)))

/-! ## Coupling scheme model (`CouplingScheme.cpp`)

Enumerations follow the source / the spec's enumeration lists.  The typed
embedding makes the `in_range` guards of the C++ (which check raw `int`
casts) vacuously true, so the `INVALID_*` error branches are not modelled. -/

/-- Contact modes (spec enumeration list). -/
inductive ContactMode where
  | SURFACE_TO_SURFACE
  | SURFACE_TO_SURFACE_CONFORMING
deriving DecidableEq, Repr, Inhabited

export ContactMode (SURFACE_TO_SURFACE SURFACE_TO_SURFACE_CONFORMING)

/-- Contact cases. -/
inductive ContactCase where
  | NO_CASE
  | NO_SLIDING
  | AUTO
  | TIED_NORMAL
deriving DecidableEq, Repr, Inhabited

export ContactCase (NO_CASE NO_SLIDING AUTO TIED_NORMAL)

/-- Contact methods. -/
inductive ContactMethod where
  | COMMON_PLANE
  | SINGLE_MORTAR
  | ALIGNED_MORTAR
  | MORTAR_WEIGHTS
deriving DecidableEq, Repr, Inhabited

export ContactMethod (COMMON_PLANE SINGLE_MORTAR ALIGNED_MORTAR MORTAR_WEIGHTS)

/-- Contact models. -/
inductive ContactModel where
  | FRICTIONLESS
  | TIED
  | COULOMB
  | NULL_MODEL
deriving DecidableEq, Repr, Inhabited

export ContactModel (FRICTIONLESS TIED COULOMB NULL_MODEL)

/-- Enforcement methods. -/
inductive EnforcementMethod where
  | PENALTY
  | LAGRANGE_MULTIPLIER
  | NULL_ENFORCEMENT
deriving DecidableEq, Repr, Inhabited

export EnforcementMethod (PENALTY LAGRANGE_MULTIPLIER NULL_ENFORCEMENT)

/-- Mode errors. -/
inductive ModeError where
  | NO_MODE_ERROR
  | NO_MODE_IMPLEMENTATION
deriving DecidableEq, Repr, Inhabited

export ModeError (NO_MODE_ERROR NO_MODE_IMPLEMENTATION)

/-- Case errors. -/
inductive CaseError where
  | NO_CASE_ERROR
  | INVALID_CASE_DATA
deriving DecidableEq, Repr, Inhabited

export CaseError (NO_CASE_ERROR INVALID_CASE_DATA)

/-- Method errors. -/
inductive MethodError where
  | NO_METHOD_ERROR
  | NO_METHOD_IMPLEMENTATION
  | DIFFERENT_FACE_TYPES
  | SAME_MESH_IDS
  | SAME_MESH_IDS_INVALID_DIM
  | INVALID_DIM
  | NULL_NODAL_RESPONSE
deriving DecidableEq, Repr, Inhabited

export MethodError (NO_METHOD_ERROR NO_METHOD_IMPLEMENTATION DIFFERENT_FACE_TYPES
  SAME_MESH_IDS SAME_MESH_IDS_INVALID_DIM INVALID_DIM NULL_NODAL_RESPONSE)

/-- Model errors. -/
inductive ModelError where
  | NO_MODEL_ERROR
  | NO_MODEL_IMPLEMENTATION_FOR_REGISTERED_METHOD
deriving DecidableEq, Repr, Inhabited

export ModelError (NO_MODEL_ERROR NO_MODEL_IMPLEMENTATION_FOR_REGISTERED_METHOD)

/-- Enforcement errors. -/
inductive EnforcementError where
  | NO_ENFORCEMENT_ERROR
  | INVALID_ENFORCEMENT_FOR_REGISTERED_METHOD
  | OPTIONS_NOT_SET
  | NO_ENFORCEMENT_IMPLEMENTATION_FOR_REGISTERED_METHOD
  | NO_ENFORCEMENT_IMPLEMENTATION_FOR_REGISTERED_OPTION
deriving DecidableEq, Repr, Inhabited

export EnforcementError (NO_ENFORCEMENT_ERROR INVALID_ENFORCEMENT_FOR_REGISTERED_METHOD
  OPTIONS_NOT_SET NO_ENFORCEMENT_IMPLEMENTATION_FOR_REGISTERED_METHOD
  NO_ENFORCEMENT_IMPLEMENTATION_FOR_REGISTERED_OPTION)

/-- Enforcement data errors. -/
inductive EnforcementDataErrors where
  | NO_ENFORCEMENT_DATA_ERROR
  | ERROR_IN_REGISTERED_ENFORCEMENT_DATA
deriving DecidableEq, Repr, Inhabited

export EnforcementDataErrors (NO_ENFORCEMENT_DATA_ERROR ERROR_IN_REGISTERED_ENFORCEMENT_DATA)

/-- Case info notes (warnings about auto-corrected cases). -/
inductive CaseInfo where
  | NO_CASE_INFO
  | SPECIFYING_NO_SLIDING_WITH_REGISTERED_MODE
  | SPECIFYING_NO_SLIDING_WITH_REGISTERED_METHOD
  | SPECIFYING_NONE_WITH_REGISTERED_METHOD
  | SPECIFYING_NONE_WITH_TWO_REGISTERED_MESHES
deriving DecidableEq, Repr, Inhabited

export CaseInfo (NO_CASE_INFO SPECIFYING_NO_SLIDING_WITH_REGISTERED_MODE
  SPECIFYING_NO_SLIDING_WITH_REGISTERED_METHOD SPECIFYING_NONE_WITH_REGISTERED_METHOD
  SPECIFYING_NONE_WITH_TWO_REGISTERED_MESHES)

/-- Enforcement info notes. -/
inductive EnforcementInfo where
  | NO_ENFORCEMENT_INFO
  | SPECIFYING_NULL_ENFORCEMENT_WITH_REGISTERED_METHOD
deriving DecidableEq, Repr, Inhabited

export EnforcementInfo (NO_ENFORCEMENT_INFO SPECIFYING_NULL_ENFORCEMENT_WITH_REGISTERED_METHOD)

/-- Sparse output modes for the mortar Jacobian. -/
inductive SparseMode where
  | MFEM_LINKED_LIST
  | MFEM_ELEMENT_DENSE
  | MFEM_INDEX_SET
deriving DecidableEq, Repr, Inhabited

export SparseMode (MFEM_LINKED_LIST MFEM_ELEMENT_DENSE MFEM_INDEX_SET)

/-- Implicit evaluation modes for Lagrange-multiplier enforcement. -/
inductive ImplicitEvalMode where
  | MORTAR_WEIGHTS_EVAL
  | MORTAR_RESIDUAL_JACOBIAN_EVAL
deriving DecidableEq, Repr, Inhabited

export ImplicitEvalMode (MORTAR_WEIGHTS_EVAL MORTAR_RESIDUAL_JACOBIAN_EVAL)

/-- Memory spaces of mesh data. -/
inductive MemSpace where
  | Dynamic
  | Host
  | Device
  | Unified
deriving DecidableEq, Repr, Inhabited

/-- Surface element types.  Modelled from the spec: the mesh registration
code (`MeshData`) is outside `src/`; per the spec's data model a mesh is
"discretized by identical faces of V vertices (V ∈ {2 (segment, 2D),
3 (triangle, 3D), 4 (quad, 3D)})", so the registered element type determines
the vertices-per-face count. -/
inductive InterfaceElementType where
  | LINEAR_EDGE
  | LINEAR_TRIANGLE
  | LINEAR_QUAD
deriving DecidableEq, Repr, Inhabited

export InterfaceElementType (LINEAR_EDGE LINEAR_TRIANGLE LINEAR_QUAD)

/-- `MeshData::numberOfNodesPerElement()`: vertices per face, determined by
the element type (modelled from the spec, see `InterfaceElementType`). -/
def numNodesPerElement : InterfaceElementType → ℕ
  | LINEAR_EDGE => 2
  | LINEAR_TRIANGLE => 3
  | LINEAR_QUAD => 4

/-- Registered mesh state consulted by the coupling-scheme validation.
Modelled from the spec (the `MeshData` class is outside `src/`): the
accessors used by `CouplingScheme.cpp` are represented as fields. -/
structure MeshData where
  element_type : InterfaceElementType
  mem_space : MemSpace
  is_valid : Bool
  num_elements : ℕ
  spatial_dim : ℕ
  element_thickness_set : Bool
  nodal_response_set : Bool
  lm_data_ok : Bool
  penalty_data_ok : Bool
  has_velocity : Bool
deriving DecidableEq, Repr

/-- The tolerance parameters of the coupling scheme consulted by the
embedded routines.  `gap_tol_rat` embeds the source member
`m_parameters.gap_tol_ratio`. -/
structure Parameters where
  gap_tied_tol : ℚ
  gap_tol_rat : ℚ
  auto_interpen_check : Bool
  enable_timestep_vote : Bool
deriving DecidableEq, Repr

/-- Lagrange-multiplier implicit options. -/
structure LMOptions where
  eval_mode : ImplicitEvalMode
  sparse_mode : SparseMode
  enforcement_option_set : Bool
deriving DecidableEq, Repr

/-- Penalty enforcement options. -/
structure PenaltyOptions where
  constraint_type_set : Bool
deriving DecidableEq, Repr

/-- `EnforcementOptions`. -/
structure EnforcementOptions where
  lm_implicit_options : LMOptions
  penalty_options : PenaltyOptions
deriving DecidableEq, Repr

/-- `CouplingSchemeErrors`. -/
structure CouplingSchemeErrors where
  cs_mode_error : ModeError
  cs_case_error : CaseError
  cs_method_error : MethodError
  cs_model_error : ModelError
  cs_enforcement_error : EnforcementError
  cs_enforcement_data_error : EnforcementDataErrors
deriving DecidableEq, Repr

/-- `CouplingSchemeInfo`. -/
structure CouplingSchemeInfo where
  cs_case_info : CaseInfo
  cs_enforcement_info : EnforcementInfo
deriving DecidableEq, Repr

/-- The coupling-scheme state consulted and mutated by the validation
routines of `CouplingScheme.cpp`. -/
structure CouplingScheme where
  mesh_id1 : ℕ
  mesh_id2 : ℕ
  contactMode : ContactMode
  contactCase : ContactCase
  contactMethod : ContactMethod
  contactModel : ContactModel
  enforcementMethod : EnforcementMethod
  parameters : Parameters
  enforcementOptions : EnforcementOptions
  errors : CouplingSchemeErrors
  info : CouplingSchemeInfo
  nullMeshes : Bool
  isValid : Bool
deriving DecidableEq, Repr

/-- `CouplingScheme::isValidMode()`: both spec contact modes are
implemented, so (over the typed enum) the check records `NO_MODE_ERROR`. -/
def isValidMode (cs : CouplingScheme) : CouplingScheme × Bool :=
  if cs.contactMode ≠ SURFACE_TO_SURFACE ∧
     cs.contactMode ≠ SURFACE_TO_SURFACE_CONFORMING then
    ({cs with errors := {cs.errors with cs_mode_error := NO_MODE_IMPLEMENTATION}}, false)
  else
    ({cs with errors := {cs.errors with cs_mode_error := NO_MODE_ERROR}}, true)

/-- `CouplingScheme::isValidCase()`: auto-corrects incompatible cases
(conforming mode and aligned mortar force `NO_SLIDING`; single mortar and
mortar weights force `NO_CASE`; `AUTO` with two distinct meshes becomes
`NO_CASE`), then validates `AUTO`'s element-thickness requirement. -/
def isValidCase (mesh1 mesh2 : MeshData) (cs0 : CouplingScheme) :
    CouplingScheme × Bool :=
  let cs := cs0
  let cs := if cs.contactMode = SURFACE_TO_SURFACE_CONFORMING ∧
               cs.contactCase ≠ NO_SLIDING then
      {cs with contactCase := NO_SLIDING,
               info := {cs.info with cs_case_info := SPECIFYING_NO_SLIDING_WITH_REGISTERED_MODE}}
    else cs
  let cs := if cs.contactMethod = ALIGNED_MORTAR ∧ cs.contactCase ≠ NO_SLIDING then
      {cs with contactCase := NO_SLIDING,
               info := {cs.info with cs_case_info := SPECIFYING_NO_SLIDING_WITH_REGISTERED_METHOD}}
    else cs
  let cs := if (cs.contactMethod = SINGLE_MORTAR ∨ cs.contactMethod = MORTAR_WEIGHTS) ∧
               (cs.contactCase ≠ NO_CASE ∧ cs.contactCase ≠ NO_SLIDING) then
      {cs with contactCase := NO_CASE,
               info := {cs.info with cs_case_info := SPECIFYING_NONE_WITH_REGISTERED_METHOD}}
    else cs
  let cs := if cs.contactCase = AUTO ∧ cs.mesh_id1 ≠ cs.mesh_id2 then
      {cs with contactCase := NO_CASE,
               info := {cs.info with cs_case_info := SPECIFYING_NONE_WITH_TWO_REGISTERED_MESHES}}
    else cs
  if cs.contactCase = AUTO then
    let cs := {cs with parameters := {cs.parameters with auto_interpen_check := true}}
    if ¬mesh1.element_thickness_set ∨ ¬mesh2.element_thickness_set then
      ({cs with errors := {cs.errors with cs_case_error := INVALID_CASE_DATA}}, false)
    else
      ({cs with errors := {cs.errors with cs_case_error := NO_CASE_ERROR}}, true)
  else
    let cs := {cs with parameters := {cs.parameters with auto_interpen_check := false}}
    ({cs with errors := {cs.errors with cs_case_error := NO_CASE_ERROR}}, true)

/-- The nodal-response validity check shared by the mortar methods and the
common-plane method at the end of `CouplingScheme::isValidMethod()`. -/
def methodResponseCheck (mesh1 mesh2 : MeshData) (cs : CouplingScheme) :
    CouplingScheme × Bool :=
  if cs.contactMethod = ALIGNED_MORTAR ∨ cs.contactMethod = SINGLE_MORTAR ∨
     cs.contactMethod = COMMON_PLANE then
    if mesh1.num_elements > 0 ∧ ¬mesh1.nodal_response_set then
      ({cs with errors := {cs.errors with cs_method_error := NULL_NODAL_RESPONSE}}, false)
    else if mesh2.num_elements > 0 ∧ ¬mesh2.nodal_response_set then
      ({cs with errors := {cs.errors with cs_method_error := NULL_NODAL_RESPONSE}}, false)
    else
      ({cs with errors := {cs.errors with cs_method_error := NO_METHOD_ERROR}}, true)
  else
    ({cs with errors := {cs.errors with cs_method_error := NO_METHOD_ERROR}}, true)

/-- `CouplingScheme::isValidMethod()`: for non-null meshes, mortar methods
reject different face types, identical mesh ids and non-3D problems; the
common-plane method rejects different face types; then the nodal-response
registration is checked. -/
def isValidMethod (mesh1 mesh2 : MeshData) (cs : CouplingScheme) :
    CouplingScheme × Bool :=
  let dim := mesh1.spatial_dim
  if ¬cs.nullMeshes then
    if cs.contactMethod = ALIGNED_MORTAR ∨ cs.contactMethod = MORTAR_WEIGHTS ∨
       cs.contactMethod = SINGLE_MORTAR then
      if numNodesPerElement mesh1.element_type ≠ numNodesPerElement mesh2.element_type then
        ({cs with errors := {cs.errors with cs_method_error := DIFFERENT_FACE_TYPES}}, false)
      else if cs.mesh_id1 = cs.mesh_id2 then
        (if dim ≠ 3 then
          {cs with errors := {cs.errors with cs_method_error := SAME_MESH_IDS_INVALID_DIM}}
         else
          {cs with errors := {cs.errors with cs_method_error := SAME_MESH_IDS}}, false)
      else if dim ≠ 3 then
        ({cs with errors := {cs.errors with cs_method_error := INVALID_DIM}}, false)
      else methodResponseCheck mesh1 mesh2 cs
    else if cs.contactMethod = COMMON_PLANE then
      if numNodesPerElement mesh1.element_type ≠ numNodesPerElement mesh2.element_type then
        ({cs with errors := {cs.errors with cs_method_error := DIFFERENT_FACE_TYPES}}, false)
      else methodResponseCheck mesh1 mesh2 cs
    else
      ({cs with errors := {cs.errors with cs_method_error := NO_METHOD_IMPLEMENTATION}}, false)
  else
    ({cs with errors := {cs.errors with cs_method_error := NO_METHOD_ERROR}}, true)

/-- `CouplingScheme::isValidModel()`: model/method compatibility. -/
def isValidModel (cs : CouplingScheme) : CouplingScheme × Bool :=
  match cs.contactMethod with
  | SINGLE_MORTAR | ALIGNED_MORTAR | MORTAR_WEIGHTS =>
    if cs.contactModel ≠ FRICTIONLESS ∧ cs.contactModel ≠ NULL_MODEL then
      ({cs with errors := {cs.errors with
          cs_model_error := NO_MODEL_IMPLEMENTATION_FOR_REGISTERED_METHOD}}, false)
    else
      ({cs with errors := {cs.errors with cs_model_error := NO_MODEL_ERROR}}, true)
  | COMMON_PLANE =>
    if cs.contactModel ≠ FRICTIONLESS ∧ cs.contactModel ≠ NULL_MODEL ∧
       cs.contactModel ≠ TIED then
      ({cs with errors := {cs.errors with
          cs_model_error := NO_MODEL_IMPLEMENTATION_FOR_REGISTERED_METHOD}}, false)
    else
      ({cs with errors := {cs.errors with cs_model_error := NO_MODEL_ERROR}}, true)

/-- `CouplingScheme::isValidEnforcement()`: method/enforcement
compatibility, including the forced `NULL_ENFORCEMENT` and
`MORTAR_WEIGHTS_EVAL` settings for `MORTAR_WEIGHTS`. -/
def isValidEnforcement (cs0 : CouplingScheme) : CouplingScheme × Bool :=
  match cs0.contactMethod with
  | MORTAR_WEIGHTS =>
    let cs := if cs0.enforcementMethod ≠ NULL_ENFORCEMENT then
        {cs0 with enforcementMethod := NULL_ENFORCEMENT,
                  info := {cs0.info with cs_enforcement_info :=
                    SPECIFYING_NULL_ENFORCEMENT_WITH_REGISTERED_METHOD}}
      else cs0
    let cs := if cs.enforcementOptions.lm_implicit_options.eval_mode ≠ MORTAR_WEIGHTS_EVAL then
        {cs with enforcementOptions := {cs.enforcementOptions with
          lm_implicit_options := {cs.enforcementOptions.lm_implicit_options with
            eval_mode := MORTAR_WEIGHTS_EVAL}}}
      else cs
    if cs.enforcementOptions.lm_implicit_options.sparse_mode ≠ MFEM_LINKED_LIST then
      ({cs with errors := {cs.errors with cs_enforcement_error :=
          NO_ENFORCEMENT_IMPLEMENTATION_FOR_REGISTERED_OPTION}}, false)
    else
      ({cs with errors := {cs.errors with cs_enforcement_error := NO_ENFORCEMENT_ERROR}}, true)
  | ALIGNED_MORTAR | SINGLE_MORTAR =>
    if cs0.enforcementMethod = PENALTY then
      ({cs0 with errors := {cs0.errors with cs_enforcement_error :=
          NO_ENFORCEMENT_IMPLEMENTATION_FOR_REGISTERED_METHOD}}, false)
    else if cs0.enforcementMethod ≠ LAGRANGE_MULTIPLIER then
      ({cs0 with errors := {cs0.errors with cs_enforcement_error :=
          INVALID_ENFORCEMENT_FOR_REGISTERED_METHOD}}, false)
    else if ¬cs0.enforcementOptions.lm_implicit_options.enforcement_option_set then
      ({cs0 with errors := {cs0.errors with cs_enforcement_error := OPTIONS_NOT_SET}}, false)
    else if cs0.enforcementOptions.lm_implicit_options.sparse_mode ≠ MFEM_LINKED_LIST ∧
            cs0.enforcementOptions.lm_implicit_options.sparse_mode ≠ MFEM_ELEMENT_DENSE then
      ({cs0 with errors := {cs0.errors with cs_enforcement_error :=
          NO_ENFORCEMENT_IMPLEMENTATION_FOR_REGISTERED_OPTION}}, false)
    else if cs0.enforcementOptions.lm_implicit_options.eval_mode = MORTAR_WEIGHTS_EVAL then
      ({cs0 with errors := {cs0.errors with cs_enforcement_error :=
          NO_ENFORCEMENT_IMPLEMENTATION_FOR_REGISTERED_OPTION}}, false)
    else
      ({cs0 with errors := {cs0.errors with cs_enforcement_error := NO_ENFORCEMENT_ERROR}}, true)
  | COMMON_PLANE =>
    if cs0.enforcementMethod ≠ PENALTY then
      ({cs0 with errors := {cs0.errors with cs_enforcement_error :=
          INVALID_ENFORCEMENT_FOR_REGISTERED_METHOD}}, false)
    else if ¬cs0.enforcementOptions.penalty_options.constraint_type_set then
      ({cs0 with errors := {cs0.errors with cs_enforcement_error := OPTIONS_NOT_SET}}, false)
    else
      ({cs0 with errors := {cs0.errors with cs_enforcement_error := NO_ENFORCEMENT_ERROR}}, true)

/-- `CouplingScheme::checkEnforcementData()`: Lagrange-multiplier data check
for the mortar methods (nonmortar side only) and penalty data check for the
common-plane method.  Returns the C++ `int err`. -/
def checkEnforcementData (mesh1 mesh2 : MeshData) (cs0 : CouplingScheme) :
    CouplingScheme × ℤ :=
  let cs := {cs0 with errors := {cs0.errors with
    cs_enforcement_data_error := NO_ENFORCEMENT_DATA_ERROR}}
  match cs.contactMethod with
  | MORTAR_WEIGHTS => (cs, 0)
  | ALIGNED_MORTAR | SINGLE_MORTAR =>
    match cs.enforcementMethod with
    | LAGRANGE_MULTIPLIER =>
      if ¬mesh2.lm_data_ok then
        ({cs with errors := {cs.errors with
            cs_enforcement_data_error := ERROR_IN_REGISTERED_ENFORCEMENT_DATA}}, 1)
      else (cs, 0)
    | _ => (cs, 0)
  | COMMON_PLANE =>
    match cs.enforcementMethod with
    | PENALTY =>
      if ¬mesh1.penalty_data_ok ∨ ¬mesh2.penalty_data_ok then
        ({cs with errors := {cs.errors with
            cs_enforcement_data_error := ERROR_IN_REGISTERED_ENFORCEMENT_DATA}}, 1)
      else (cs, 0)
    | _ => (cs, 0)

/-- `CouplingScheme::isValidCouplingScheme()`: meshes must be registered;
meshes with different element types or memory spaces are marked invalid and
the scheme is rejected; null meshes are flagged; then every validator runs
(failures accumulate, they do not short-circuit), with
`checkEnforcementData` run only when the enforcement check passed.
Returns the updated scheme, the (possibly invalidated) meshes, and `valid`. -/
def isValidCouplingScheme (m1? m2? : Option MeshData) (cs0 : CouplingScheme) :
    CouplingScheme × Option MeshData × Option MeshData × Bool :=
  match m1?, m2? with
  | some m1, some m2 =>
    let badType := m1.element_type ≠ m2.element_type
    let badSpace := m1.mem_space ≠ m2.mem_space
    let m1 := if badType ∨ badSpace then {m1 with is_valid := false} else m1
    let m2 := if badType ∨ badSpace then {m2 with is_valid := false} else m2
    if ¬m1.is_valid ∨ ¬m2.is_valid then (cs0, some m1, some m2, false)
    else
      let cs := if m1.num_elements = 0 ∨ m2.num_elements = 0 then
          {cs0 with nullMeshes := true}
        else cs0
      let rMode := isValidMode cs
      let rCase := isValidCase m1 m2 rMode.1
      let rMethod := isValidMethod m1 m2 rCase.1
      let rModel := isValidModel rMethod.1
      let rEnf := isValidEnforcement rModel.1
      if ¬rEnf.2 then
        (rEnf.1, some m1, some m2,
         rMode.2 && rCase.2 && rMethod.2 && rModel.2 && false)
      else
        let rData := checkEnforcementData m1 m2 rEnf.1
        (rData.1, some m1, some m2,
         rMode.2 && rCase.2 && rMethod.2 && rModel.2 && decide (rData.2 = 0))
  | _, _ => (cs0, m1?, m2?, false)

/-- `CouplingScheme::init()`: validate; record `m_isValid`; on success the
execution mode is selected (mesh-view/face-data updates are outside the
validation logic and not modelled) and a non-sequential execution mode with
a method other than `COMMON_PLANE` is rejected. -/
def CouplingScheme.init (m1? m2? : Option MeshData) (execSequential : Bool)
    (cs0 : CouplingScheme) : CouplingScheme × Bool :=
  let r := isValidCouplingScheme m1? m2? cs0
  let cs := {r.1 with isValid := r.2.2.2}
  if cs.isValid then
    if cs.contactMethod ≠ COMMON_PLANE ∧ ¬execSequential then (cs, false)
    else (cs, true)
  else (cs, false)

/-- `CouplingScheme::getGapTol( fid1, fid2 )`: zero (plus a warning) for the
mortar methods; for `COMMON_PLANE`, `gap_tied_tol * max(r1, r2)` under the
`TIED` model and `-1 * gap_tol_ratio * max(r1, r2)` for every other model,
with `r1`, `r2` the cached face radii of the two faces. -/
def CouplingScheme.getGapTol (cs : CouplingScheme) (radii1 radii2 : ℕ → ℚ)
    (fid1 fid2 : ℕ) : ℚ :=
  match cs.contactMethod with
  | SINGLE_MORTAR => 0
  | ALIGNED_MORTAR => 0
  | MORTAR_WEIGHTS => 0
  | COMMON_PLANE =>
    match cs.contactModel with
    | TIED => cs.parameters.gap_tied_tol * max (radii1 fid1) (radii2 fid2)
    | _ => -1 * cs.parameters.gap_tol_rat * max (radii1 fid1) (radii2 fid2)

/-- `CouplingScheme::ViewerBase::getCommonPlaneGapTol( fid1, fid2 )`: the
device-callable variant, dispatching on the contact model only. -/
def getCommonPlaneGapTol (params : Parameters) (model : ContactModel)
    (radii1 radii2 : ℕ → ℚ) (fid1 fid2 : ℕ) : ℚ :=
  match model with
  | TIED => params.gap_tied_tol * max (radii1 fid1) (radii2 fid2)
  | _ => -1 * params.gap_tol_rat * max (radii1 fid1) (radii2 fid2)

/-- `CouplingScheme::computeTimeStep(dt)`: a `dt` below 1e-8 is returned
unchanged; with missing velocities, `dt` becomes -1.0 when both meshes are
non-null, else is unchanged; otherwise the common-plane penalty vote
(`computeCommonPlaneTimeStep`, abstracted as `vote`) runs when enabled. -/
def CouplingScheme.computeTimeStep (vote : ℚ → ℚ) (mesh1 mesh2 : MeshData)
    (cs : CouplingScheme) (dt : ℚ) : ℚ :=
  if dt < 1 / 10 ^ 8 then dt
  else if ¬mesh1.has_velocity ∨ ¬mesh2.has_velocity then
    if mesh1.num_elements > 0 ∧ mesh2.num_elements > 0 then -1 else dt
  else
    match cs.contactMethod with
    | COMMON_PLANE =>
      if cs.enforcementMethod = PENALTY ∧ cs.parameters.enable_timestep_vote then
        vote dt
      else dt
    | _ => dt

/-- An interface pair of the coupling scheme's pair array. -/
structure InterfacePair where
  m_is_contact_candidate : Bool
deriving DecidableEq, Repr, Inhabited

/-- `PairReportingData`: per-category tallies of face-pair geometry issues. -/
structure PairReportingData where
  numBadOrientation : ℕ
  numBadOverlaps : ℕ
  numBadFaceGeometry : ℕ
deriving DecidableEq, Repr, Inhabited

/-- `CouplingScheme::updatePairReportingData`: per-category increment for a
face-geometry error (`FACE_VERTEX_INDEX_EXCEEDS_OVERLAP_VERTICES` is a
deliberate no-op). -/
def updatePairReportingData (d : PairReportingData) (e : FaceGeomError) :
    PairReportingData :=
  match e with
  | NO_FACE_GEOM_ERROR => d
  | FACE_ORIENTATION => {d with numBadOrientation := d.numBadOrientation + 1}
  | INVALID_FACE_INPUT => {d with numBadFaceGeometry := d.numBadFaceGeometry + 1}
  | DEGENERATE_OVERLAP => {d with numBadOverlaps := d.numBadOverlaps + 1}
  | FACE_VERTEX_INDEX_EXCEEDS_OVERLAP_VERTICES => d

/-- Result of `CouplingScheme::apply()`: the updated pair array, the
aggregate `pair_err` flag, the reporting tallies and the return code. -/
structure ApplyResult where
  pairs : List InterfacePair
  pair_err : Bool
  reporting : PairReportingData
  ret : ℕ
deriving DecidableEq, Repr

/-- `CouplingScheme::apply()`: the per-pair kernel marks a pair with a
`CheckInterfacePair` face-geometry error (or a negative interaction check)
as not a contact candidate and raises the aggregate `pair_err` flag; pairs
that interact are marked candidates.  `CheckInterfacePair` (defined in
`ContactPlane.cpp`, outside `src/`) is abstracted by the oracle `check`
mapping a pair index to `(error, interact)`; `ApplyInterfacePhysics` by its
return code `physicsErr`.  The source's in-loop call to
`updatePairReportingData` is commented out, so the tallies pass through
unchanged, and the return code is 1 exactly when the physics kernel errs.
`applyPairStep` is the per-pair loop body. -/
def applyPairStep (check : ℕ → FaceGeomError × Bool)
    (st : List InterfacePair × Bool) (i : ℕ) : List InterfacePair × Bool :=
  let pair := st.1.getD i default
  let r := check i
  let pair' :=
    if r.1 ≠ NO_FACE_GEOM_ERROR then {pair with m_is_contact_candidate := false}
    else if ¬r.2 then {pair with m_is_contact_candidate := false}
    else {pair with m_is_contact_candidate := true}
  (st.1.set i pair', st.2 || decide (r.1 ≠ NO_FACE_GEOM_ERROR))

/-- The pair value written by the per-pair kernel for pair index `i`
(independent of the pair's previous state, whose only field is the
candidate flag). -/
def applyPairVal (check : ℕ → FaceGeomError × Bool) (i : ℕ) : InterfacePair :=
  if (check i).1 ≠ NO_FACE_GEOM_ERROR then ⟨false⟩
  else if ¬(check i).2 then ⟨false⟩ else ⟨true⟩

def CouplingScheme.apply (check : ℕ → FaceGeomError × Bool) (physicsErr : ℤ)
    (pairs : List InterfacePair) (reporting : PairReportingData) : ApplyResult :=
  let st := (List.range pairs.length).foldl (applyPairStep check) (pairs, false)
  { pairs := st.1, pair_err := st.2, reporting := reporting,
    ret := if physicsErr ≠ 0 then 1 else 0 }

/-- The overlap-vertex collection stage of `Intersection2DPolygon` as a
standalone function: interior classification, coincidence dedup,
segment/segment intersections and the two fill loops; `none` on the
guarded (counter-overflow) error paths. -/
def segAndInteriorVerts (A B : List Pt) (posTol : ℚ) : Option (List Pt) :=
  let flagsA := interiorFlags A B
  let ded := dedupInteriorB A B flagsA (interiorFlags B A)
  match segSegLoop A B flagsA ded.1 posTol with
  | none => none
  | some inters =>
    fillInterior B ded.1 (fillInterior A flagsA
      (some ((inters.filter (fun r => r.1)).map (fun r => r.2))))

/-! ## Concrete instances used in witnesses and counterexamples -/

/-- A clean error record (the constructor-initialized state). -/
def errorsClean : CouplingSchemeErrors :=
  ⟨NO_MODE_ERROR, NO_CASE_ERROR, NO_METHOD_ERROR, NO_MODEL_ERROR,
   NO_ENFORCEMENT_ERROR, NO_ENFORCEMENT_DATA_ERROR⟩

/-- A clean info record. -/
def infoClean : CouplingSchemeInfo := ⟨NO_CASE_INFO, NO_ENFORCEMENT_INFO⟩

/-- A common-plane, TIED-model, penalty coupling scheme. -/
def csCommonPlaneTied : CouplingScheme :=
  { mesh_id1 := 0, mesh_id2 := 1,
    contactMode := SURFACE_TO_SURFACE, contactCase := NO_CASE,
    contactMethod := COMMON_PLANE, contactModel := TIED,
    enforcementMethod := PENALTY,
    parameters := ⟨1 / 10, 1 / 100, false, false⟩,
    enforcementOptions := ⟨⟨MORTAR_RESIDUAL_JACOBIAN_EVAL, MFEM_LINKED_LIST, true⟩, ⟨true⟩⟩,
    errors := errorsClean, info := infoClean,
    nullMeshes := false, isValid := false }

/-- A single-mortar, Lagrange-multiplier coupling scheme. -/
def csSingleMortar : CouplingScheme :=
  { csCommonPlaneTied with
    contactMethod := SINGLE_MORTAR, contactModel := FRICTIONLESS,
    enforcementMethod := LAGRANGE_MULTIPLIER }

/-- A registered 4-node-face host-memory mesh with all data set. -/
def meshHostQuad : MeshData :=
  { element_type := LINEAR_QUAD, mem_space := MemSpace.Host, is_valid := true,
    num_elements := 1, spatial_dim := 3, element_thickness_set := true,
    nodal_response_set := true, lm_data_ok := true, penalty_data_ok := true,
    has_velocity := false }

/-- The same mesh with 3-node faces. -/
def meshHostTri : MeshData := { meshHostQuad with element_type := LINEAR_TRIANGLE }

/-- Perturbation 1e-16 used in the overlap-symmetry failing input. -/
def tC3 : ℚ := 1 / 10 ^ 16

/-- The CCW unit square. -/
def sqA : List Pt := [⟨0, 0⟩, ⟨1, 0⟩, ⟨1, 1⟩, ⟨0, 1⟩]

/-- A CCW square overlapping `sqA` only in the tiny corner
`[1 - 1e-16, 1]^2`: its lower-left vertex is interior to `sqA` and within
1e-15 of `sqA`'s upper-right vertex (which is interior to it). -/
def sqB : List Pt := [⟨1 - tC3, 1 - tC3⟩, ⟨2, 1 - tC3⟩, ⟨2, 2⟩, ⟨1 - tC3, 2⟩]

/-- A CCW unit square far away from `sqA` (empty overlap). -/
def sqFar : List Pt := [⟨10, 10⟩, ⟨11, 10⟩, ⟨11, 11⟩, ⟨10, 11⟩]

/-! ## Theorems -/

attribute [local semireducible] Rat.add Rat.mul Rat.inv Rat.sub

/-- C1: for a COMMON_PLANE coupling scheme and any face pair, the gap
tolerance returned by `getGapTol` and by `getCommonPlaneGapTol` equals
`gap_tied_tol * max(r1, r2)` (a positive value) when the contact model is
TIED, and `-gap_tol_ratio * max(r1, r2)` (a negative value) for every other
contact model, where `r1`, `r2` are the cached face radii of the two faces
(positivity of the tolerance parameters and of the radii maximum as in the
spec). -/
theorem C1_commonPlane_gapTol (cs : CouplingScheme) (radii1 radii2 : ℕ → ℚ)
    (fid1 fid2 : ℕ) (hm : cs.contactMethod = COMMON_PLANE)
    (htied : 0 < cs.parameters.gap_tied_tol)
    (hrat : 0 < cs.parameters.gap_tol_rat)
    (hr : 0 < max (radii1 fid1) (radii2 fid2)) :
    (cs.contactModel = TIED →
      cs.getGapTol radii1 radii2 fid1 fid2
          = cs.parameters.gap_tied_tol * max (radii1 fid1) (radii2 fid2) ∧
      getCommonPlaneGapTol cs.parameters cs.contactModel radii1 radii2 fid1 fid2
          = cs.parameters.gap_tied_tol * max (radii1 fid1) (radii2 fid2) ∧
      0 < cs.getGapTol radii1 radii2 fid1 fid2) ∧
    (cs.contactModel ≠ TIED →
      cs.getGapTol radii1 radii2 fid1 fid2
          = -1 * cs.parameters.gap_tol_rat * max (radii1 fid1) (radii2 fid2) ∧
      getCommonPlaneGapTol cs.parameters cs.contactModel radii1 radii2 fid1 fid2
          = -1 * cs.parameters.gap_tol_rat * max (radii1 fid1) (radii2 fid2) ∧
      cs.getGapTol radii1 radii2 fid1 fid2 < 0) := by
  have hneg : -1 * cs.parameters.gap_tol_rat * max (radii1 fid1) (radii2 fid2) < 0 := by
    have := mul_pos hrat hr
    nlinarith
  constructor
  · intro hT
    have e1 : cs.getGapTol radii1 radii2 fid1 fid2
        = cs.parameters.gap_tied_tol * max (radii1 fid1) (radii2 fid2) := by
      simp [CouplingScheme.getGapTol, hm, hT]
    have e2 : getCommonPlaneGapTol cs.parameters cs.contactModel radii1 radii2 fid1 fid2
        = cs.parameters.gap_tied_tol * max (radii1 fid1) (radii2 fid2) := by
      simp [getCommonPlaneGapTol, hT]
    exact ⟨e1, e2, e1 ▸ mul_pos htied hr⟩
  · intro hT
    have key : ∀ hmod : cs.contactModel = FRICTIONLESS ∨ cs.contactModel = COULOMB ∨
        cs.contactModel = NULL_MODEL,
        cs.getGapTol radii1 radii2 fid1 fid2
          = -1 * cs.parameters.gap_tol_rat * max (radii1 fid1) (radii2 fid2) ∧
        getCommonPlaneGapTol cs.parameters cs.contactModel radii1 radii2 fid1 fid2
          = -1 * cs.parameters.gap_tol_rat * max (radii1 fid1) (radii2 fid2) := by
      rintro (hmod | hmod | hmod) <;>
        exact ⟨by simp [CouplingScheme.getGapTol, hm, hmod],
               by simp [getCommonPlaneGapTol, hmod]⟩
    have hcases : cs.contactModel = FRICTIONLESS ∨ cs.contactModel = COULOMB ∨
        cs.contactModel = NULL_MODEL := by
      cases h : cs.contactModel
      · exact Or.inl rfl
      · exact absurd h hT
      · exact Or.inr (Or.inl rfl)
      · exact Or.inr (Or.inr rfl)
    obtain ⟨e1, e2⟩ := key hcases
    exact ⟨e1, e2, e1 ▸ hneg⟩

/-- Witness for C1: the TIED branch of the concrete scheme
`csCommonPlaneTied` at radii 2 and 3. -/
theorem C1_commonPlane_gapTol_witness :
    csCommonPlaneTied.contactMethod = COMMON_PLANE ∧
    ((csCommonPlaneTied.contactModel = TIED →
      csCommonPlaneTied.getGapTol (fun _ => 2) (fun _ => 3) 0 0
          = csCommonPlaneTied.parameters.gap_tied_tol * max ((2 : ℚ)) 3 ∧
      getCommonPlaneGapTol csCommonPlaneTied.parameters csCommonPlaneTied.contactModel
          (fun _ => 2) (fun _ => 3) 0 0
          = csCommonPlaneTied.parameters.gap_tied_tol * max ((2 : ℚ)) 3 ∧
      0 < csCommonPlaneTied.getGapTol (fun _ => 2) (fun _ => 3) 0 0) ∧
     (csCommonPlaneTied.contactModel ≠ TIED →
      csCommonPlaneTied.getGapTol (fun _ => 2) (fun _ => 3) 0 0
          = -1 * csCommonPlaneTied.parameters.gap_tol_rat * max ((2 : ℚ)) 3 ∧
      getCommonPlaneGapTol csCommonPlaneTied.parameters csCommonPlaneTied.contactModel
          (fun _ => 2) (fun _ => 3) 0 0
          = -1 * csCommonPlaneTied.parameters.gap_tol_rat * max ((2 : ℚ)) 3 ∧
      csCommonPlaneTied.getGapTol (fun _ => 2) (fun _ => 3) 0 0 < 0)) :=
  ⟨rfl, C1_commonPlane_gapTol csCommonPlaneTied (fun _ => 2) (fun _ => 3) 0 0
    rfl (by norm_num [csCommonPlaneTied]) (by norm_num [csCommonPlaneTied]) (by norm_num)⟩

/-- C8 (amended): `PolyAreaCentroid` reports failure exactly when the
polygon has zero vertices; inputs with 1 or 2 vertices return success (the
degenerate triangle fan gives a zero area sum). -/
theorem C8_polyAreaCentroid_fails_iff_zero_vertices (sqrt : ℚ → ℚ) (p : List Pt3) :
    (PolyAreaCentroid sqrt p).1 = false ↔ p.length = 0 := by
  unfold PolyAreaCentroid
  by_cases h : p.length = 0 <;> simp [h]

/-- Counterexample for C8 as stated: a 2-vertex polygon (fewer than 3
vertices) on which `PolyAreaCentroid` reports success rather than failure. -/
theorem C8_two_vertex_polygon_succeeds :
    (PolyAreaCentroid id [⟨0, 0, 0⟩, ⟨1, 0, 0⟩]).1 = true ∧
    ([(⟨0, 0, 0⟩ : Pt3), ⟨1, 0, 0⟩]).length < 3 := by decide

/-- C9: `computeTimeStep` with incoming `dt ≥ 1e-8`, both meshes non-null
and at least one mesh without registered velocities sets `dt = -1.0` (for
every possible vote computation `vote`, i.e. the vote is skipped); an
incoming `dt < 1e-8` is returned unchanged. -/
theorem C9_computeTimeStep_velocity_guard (vote : ℚ → ℚ) (m1 m2 : MeshData)
    (cs : CouplingScheme) (dt : ℚ) :
    (1 / 10 ^ 8 ≤ dt → (m1.has_velocity = false ∨ m2.has_velocity = false) →
      0 < m1.num_elements → 0 < m2.num_elements →
      cs.computeTimeStep vote m1 m2 dt = -1) ∧
    (dt < 1 / 10 ^ 8 → cs.computeTimeStep vote m1 m2 dt = dt) := by
  unfold CouplingScheme.computeTimeStep
  constructor
  · intro hdt hv h1 h2
    rw [if_neg (by simp; linarith), if_pos (by simpa using hv), if_pos ⟨h1, h2⟩]
  · intro hdt
    rw [if_pos hdt]

/-- Witness for C9: a concrete velocity-free pair of non-null meshes with
`dt = 1` votes `-1`; `dt = 1e-9` is returned unchanged. -/
theorem C9_computeTimeStep_velocity_guard_witness :
    ((1 : ℚ) / 10 ^ 8 ≤ 1 → (meshHostQuad.has_velocity = false ∨
        meshHostQuad.has_velocity = false) →
      0 < meshHostQuad.num_elements → 0 < meshHostQuad.num_elements →
      csCommonPlaneTied.computeTimeStep id meshHostQuad meshHostQuad 1 = -1) ∧
    ((1 : ℚ) / 10 ^ 9 < 1 / 10 ^ 8 →
      csCommonPlaneTied.computeTimeStep id meshHostQuad meshHostQuad (1 / 10 ^ 9)
        = 1 / 10 ^ 9) ∧
    csCommonPlaneTied.computeTimeStep id meshHostQuad meshHostQuad 1 = -1 :=
  ⟨(C9_computeTimeStep_velocity_guard id meshHostQuad meshHostQuad csCommonPlaneTied 1).1,
   (C9_computeTimeStep_velocity_guard id meshHostQuad meshHostQuad csCommonPlaneTied
     (1 / 10 ^ 9)).2,
   (C9_computeTimeStep_velocity_guard id meshHostQuad meshHostQuad csCommonPlaneTied 1).1
     (by norm_num) (Or.inl rfl) (by decide) (by decide)⟩

/-- Relation between `Vertex2DOrderToCCW` and its read-index list: the first
components of the written entries are exactly the input array `x` sampled at
the read indices. -/
theorem vertex2DOrderToCCW_fst_eq_map_reads (x y : ℕ → ℚ) (n : ℕ) :
    (Vertex2DOrderToCCW x y n).map Prod.fst
      = (Vertex2DOrderToCCW_readIndices n).map x := by
  unfold Vertex2DOrderToCCW Vertex2DOrderToCCW_readIndices
  by_cases h : n = 0 <;> simp [h, List.map_map]

/-- C10: `Vertex2DOrderToCCW` reads the out-of-bounds index `numVert` (for
`numVert = 4` it reads index 4, which is not among the valid indices
0..3), and the out-of-bounds value `x[numVert]` flows into the output in
place of the claimed in-bounds reversal. -/
theorem C10_vertex2DOrderToCCW_reads_oob :
    (4 ∈ Vertex2DOrderToCCW_readIndices 4 ∧ 4 ∉ List.range 4) ∧
    Vertex2DOrderToCCW (fun i => (i : ℚ)) (fun i => (i : ℚ)) 4
      = [(0, 0), (4, 4), (3, 3), (2, 2), (1, 1)] := by decide

/-- The per-pair loop of `apply` preserves the length of the pair array. -/
theorem applyFold_fst_length (check : ℕ → FaceGeomError × Bool)
    (l : List InterfacePair) (b : Bool) (n : ℕ) :
    (((List.range n).foldl (applyPairStep check) (l, b)).1).length = l.length := by
  induction n with
  | zero => rfl
  | succ n ih =>
    rw [List.range_succ, List.foldl_append]
    simp [applyPairStep, ih]

/-- The aggregate `pair_err` flag after the per-pair loop: true exactly when
some processed pair reported a face-geometry error. -/
theorem applyFold_snd (check : ℕ → FaceGeomError × Bool)
    (l : List InterfacePair) (b : Bool) (n : ℕ) :
    ((List.range n).foldl (applyPairStep check) (l, b)).2
      = (b || (List.range n).any (fun i =>
          decide ((check i).1 ≠ NO_FACE_GEOM_ERROR))) := by
  induction n with
  | zero => simp
  | succ n ih =>
    rw [List.range_succ, List.foldl_append]
    simp [applyPairStep, ih, Bool.or_assoc]

/-- After the per-pair loop, pair `i` holds the value determined by the
geometry-check oracle at `i`. -/
theorem applyFold_fst_getD (check : ℕ → FaceGeomError × Bool)
    (l : List InterfacePair) (b : Bool) (n : ℕ) (hn : n ≤ l.length)
    (i : ℕ) (hi : i < n) :
    ((List.range n).foldl (applyPairStep check) (l, b)).1.getD i default
      = applyPairVal check i := by
  induction n with
  | zero => omega
  | succ n ih =>
    rw [List.range_succ, List.foldl_append]
    have hlen : (((List.range n).foldl (applyPairStep check) (l, b)).1).length
        = l.length := applyFold_fst_length check l b n
    by_cases h : i = n
    · subst h
      simp only [applyPairStep, List.foldl_cons, List.foldl_nil]
      rw [List.getD_eq_getElem?_getD, List.getElem?_set_self (by omega)]
      simp [applyPairVal]
    · have hi' : i < n := by omega
      simp only [applyPairStep, List.foldl_cons, List.foldl_nil]
      rw [List.getD_eq_getElem?_getD, List.getElem?_set_ne (by omega),
        ← List.getD_eq_getElem?_getD]
      exact ih (by omega) hi'

/-- Counterexample for C2 as stated: a single pair whose geometry check
fails with `FACE_ORIENTATION`; `apply` drops the pair and returns 0, but
the per-category reporting data is left untouched (the claim says the error
is tallied; `updatePairReportingData` would have incremented the
orientation tally). -/
theorem C2_error_not_tallied :
    (CouplingScheme.apply (fun _ => (FACE_ORIENTATION, false)) 0 [⟨true⟩]
      ⟨0, 0, 0⟩).reporting = ⟨0, 0, 0⟩ ∧
    updatePairReportingData ⟨0, 0, 0⟩ FACE_ORIENTATION ≠ ⟨0, 0, 0⟩ ∧
    (CouplingScheme.apply (fun _ => (FACE_ORIENTATION, false)) 0 [⟨true⟩]
      ⟨0, 0, 0⟩).ret = 0 ∧
    (CouplingScheme.apply (fun _ => (FACE_ORIENTATION, false)) 0 [⟨true⟩]
      ⟨0, 0, 0⟩).pairs = [⟨false⟩] := by decide

/-- C2 (amended): a face-geometry error from `CheckInterfacePair` is never
fatal: the pair is marked not a contact candidate and the aggregate
`pair_err` flag (a warning log, not a per-category tally) is raised, the
per-category pair reporting data passes through `apply` unchanged (the
in-loop `updatePairReportingData` call is commented out in the source), and
`apply` returns 0 whenever the physics kernel reports no error. -/
theorem C2_pair_error_never_fatal (check : ℕ → FaceGeomError × Bool)
    (physicsErr : ℤ) (pairs : List InterfacePair) (reporting : PairReportingData)
    (i : ℕ) (hi : i < pairs.length)
    (he : (check i).1 ≠ NO_FACE_GEOM_ERROR) :
    ((CouplingScheme.apply check physicsErr pairs reporting).pairs.getD i
        default).m_is_contact_candidate = false ∧
    (CouplingScheme.apply check physicsErr pairs reporting).pair_err = true ∧
    (CouplingScheme.apply check physicsErr pairs reporting).reporting = reporting ∧
    (physicsErr = 0 →
      (CouplingScheme.apply check physicsErr pairs reporting).ret = 0) := by
  refine ⟨?_, ?_, rfl, ?_⟩
  · show (((List.range pairs.length).foldl (applyPairStep check)
      (pairs, false)).1.getD i default).m_is_contact_candidate = false
    rw [applyFold_fst_getD check pairs false pairs.length le_rfl i hi]
    simp [applyPairVal, he]
  · show ((List.range pairs.length).foldl (applyPairStep check)
      (pairs, false)).2 = true
    rw [applyFold_snd]
    simp only [Bool.false_or, List.any_eq_true]
    exact ⟨i, List.mem_range.mpr hi, by simpa using he⟩
  · intro h0
    simp [CouplingScheme.apply, h0]

/-- Witness for C2: the amended statement at the concrete failing pair. -/
theorem C2_pair_error_never_fatal_witness :
    (0 : ℕ) < ([(⟨true⟩ : InterfacePair)]).length ∧
    ((fun _ => (FACE_ORIENTATION, false)) (0 : ℕ)).1 ≠ NO_FACE_GEOM_ERROR ∧
    ((CouplingScheme.apply (fun _ => (FACE_ORIENTATION, false)) 0 [⟨true⟩]
        ⟨0, 0, 0⟩).pairs.getD 0 default).m_is_contact_candidate = false ∧
    (CouplingScheme.apply (fun _ => (FACE_ORIENTATION, false)) 0 [⟨true⟩]
        ⟨0, 0, 0⟩).reporting = ⟨0, 0, 0⟩ :=
  ⟨by decide, by decide,
   (C2_pair_error_never_fatal (fun _ => (FACE_ORIENTATION, false)) 0 [⟨true⟩]
     ⟨0, 0, 0⟩ 0 (by decide) (by decide)).1,
   (C2_pair_error_never_fatal (fun _ => (FACE_ORIENTATION, false)) 0 [⟨true⟩]
     ⟨0, 0, 0⟩ 0 (by decide) (by decide)).2.2.1⟩

/-- C6 (amended): meshes with different surface element types (hence
different vertices-per-face counts) make `init()` return false, but through
the mesh-compatibility check of `isValidCouplingScheme`, which marks both
meshes invalid and returns before `isValidMethod` runs: the recorded error
state is left unchanged (in particular the method error is not
`DIFFERENT_FACE_TYPES`), and the scheme is inert. -/
theorem C6_different_face_types_init_fails (m1 m2 : MeshData)
    (cs0 : CouplingScheme) (execSeq : Bool)
    (hty : m1.element_type ≠ m2.element_type) :
    (CouplingScheme.init (some m1) (some m2) execSeq cs0).2 = false ∧
    (CouplingScheme.init (some m1) (some m2) execSeq cs0).1.errors = cs0.errors ∧
    (CouplingScheme.init (some m1) (some m2) execSeq cs0).1.isValid = false := by
  unfold CouplingScheme.init isValidCouplingScheme
  simp [hty]

/-- Counterexample for C6 as stated: a 3-node-face mesh paired with a
4-node-face mesh under SINGLE_MORTAR makes `init()` fail, but the recorded
method error is `NO_METHOD_ERROR`, not the claimed `DIFFERENT_FACE_TYPES`. -/
theorem C6_no_different_face_types_error :
    (CouplingScheme.init (some meshHostTri) (some meshHostQuad) true
      csSingleMortar).2 = false ∧
    numNodesPerElement meshHostTri.element_type = 3 ∧
    numNodesPerElement meshHostQuad.element_type = 4 ∧
    csSingleMortar.contactMethod = SINGLE_MORTAR ∧
    (CouplingScheme.init (some meshHostTri) (some meshHostQuad) true
      csSingleMortar).1.errors.cs_method_error = NO_METHOD_ERROR ∧
    (CouplingScheme.init (some meshHostTri) (some meshHostQuad) true
      csSingleMortar).1.errors.cs_method_error ≠ DIFFERENT_FACE_TYPES := by decide

/-- Witness for C6: the amended statement at the concrete tri/quad pair. -/
theorem C6_different_face_types_init_fails_witness :
    meshHostTri.element_type ≠ meshHostQuad.element_type ∧
    (CouplingScheme.init (some meshHostTri) (some meshHostQuad) true
      csSingleMortar).2 = false ∧
    (CouplingScheme.init (some meshHostTri) (some meshHostQuad) true
      csSingleMortar).1.errors = csSingleMortar.errors :=
  ⟨by decide,
   (C6_different_face_types_init_fails meshHostTri meshHostQuad csSingleMortar true
     (by decide)).1,
   (C6_different_face_types_init_fails meshHostTri meshHostQuad csSingleMortar true
     (by decide)).2.1⟩

/-- `countTrue` over a cons cell. -/
theorem countTrue_cons (a : Bool) (l : List Bool) :
    countTrue (a :: l) = (if a then 1 else 0) + countTrue l := by
  cases a <;> simp [countTrue, List.filter_cons] <;> omega

/-- A true `getD` entry lies inside the list. -/
theorem getD_true_lt_length (l : List Bool) (j : ℕ) (h : l.getD j false = true) :
    j < l.length := by
  by_contra hc
  rw [List.getD_eq_getElem?_getD, List.getElem?_eq_none (by omega)] at h
  simp at h

/-- Clearing a true entry decrements the true-count by one. -/
theorem countTrue_set_false (l : List Bool) (j : ℕ) (h : l.getD j false = true) :
    countTrue (l.set j false) + 1 = countTrue l := by
  induction l generalizing j with
  | nil => simp [List.getD] at h
  | cons a l ih =>
    cases j with
    | zero =>
      simp only [List.getD_cons_zero] at h
      subst h
      simp [countTrue_cons]
      omega
    | succ j =>
      simp only [List.getD_cons_succ] at h
      have := ih j h
      simp only [List.set_cons_succ, countTrue_cons]
      omega

/-- Inner dedup loop: the final flag of a B vertex is its incoming flag
minus the processed near-coincidences with the fixed A vertex `i`; the
count stays the number of true flags, and the length is preserved. -/
theorem dedupInner_spec (a b : List Pt) (i : ℕ) (m : ℕ) (hm : m ≤ b.length)
    (st : List Bool × ℕ) (hlen : st.1.length = b.length)
    (hc : st.2 = countTrue st.1) :
    (((List.range m).foldl (dedupInnerStep a b i) st).1).length = b.length ∧
    ((List.range m).foldl (dedupInnerStep a b i) st).2
      = countTrue ((List.range m).foldl (dedupInnerStep a b i) st).1 ∧
    ∀ j, (((List.range m).foldl (dedupInnerStep a b i) st).1.getD j false = true ↔
      (st.1.getD j false = true ∧
        ¬(j < m ∧ distSq (a.getD i default) (b.getD j default) < 1 / 10 ^ 30))) := by
  induction m with
  | zero =>
    refine ⟨hlen, by simpa using hc, ?_⟩
    intro j
    simp
  | succ m ih =>
    obtain ⟨ih1, ih2, ih3⟩ := ih (by omega)
    rw [List.range_succ, List.foldl_append, List.foldl_cons, List.foldl_nil]
    set r := (List.range m).foldl (dedupInnerStep a b i) st with hr
    unfold dedupInnerStep
    by_cases hf : r.1.getD m false = true
    · rw [if_pos hf]
      by_cases hd : distSq (a.getD i default) (b.getD m default) < 1 / 10 ^ 30
      · rw [if_pos hd]
        have hcnt := countTrue_set_false r.1 m hf
        refine ⟨by simp [ih1], by simp only []; omega, ?_⟩
        intro j
        by_cases hj : j = m
        · subst hj
          rw [List.getD_eq_getElem?_getD,
            List.getElem?_set_self (getD_true_lt_length r.1 j hf)]
          simp only [Option.getD_some]
          constructor
          · intro hfalse
            exact absurd hfalse (by simp)
          · rintro ⟨_, h2⟩
            exact absurd ⟨by omega, hd⟩ h2
        · rw [List.getD_eq_getElem?_getD, List.getElem?_set_ne (fun hh => hj hh.symm),
            ← List.getD_eq_getElem?_getD, ih3 j]
          constructor
          · rintro ⟨h1, h2⟩
            exact ⟨h1, fun hcon => h2 ⟨by omega, hcon.2⟩⟩
          · rintro ⟨h1, h2⟩
            exact ⟨h1, fun hcon => h2 ⟨by omega, hcon.2⟩⟩
      · rw [if_neg hd]
        refine ⟨ih1, ih2, ?_⟩
        intro j
        rw [ih3 j]
        by_cases hj : j = m
        · subst hj
          constructor
          · rintro ⟨h1, _⟩
            exact ⟨h1, fun hcon => hd hcon.2⟩
          · rintro ⟨h1, _⟩
            exact ⟨h1, fun hcon => by omega⟩
        · constructor
          · rintro ⟨h1, h2⟩
            exact ⟨h1, fun hcon => h2 ⟨by omega, hcon.2⟩⟩
          · rintro ⟨h1, h2⟩
            exact ⟨h1, fun hcon => h2 ⟨by omega, hcon.2⟩⟩
    · rw [if_neg hf]
      refine ⟨ih1, ih2, ?_⟩
      intro j
      rw [ih3 j]
      by_cases hj : j = m
      · subst hj
        constructor
        · rintro ⟨h1, h2⟩
          exact absurd ((ih3 j).mpr ⟨h1, h2⟩) hf
        · rintro ⟨h1, h2⟩
          refine ⟨h1, fun hcon => ?_⟩
          exact h2 ⟨by omega, hcon.2⟩
      · constructor
        · rintro ⟨h1, h2⟩
          exact ⟨h1, fun hcon => h2 ⟨by omega, hcon.2⟩⟩
        · rintro ⟨h1, h2⟩
          exact ⟨h1, fun hcon => h2 ⟨by omega, hcon.2⟩⟩

/-- Outer dedup loop: a B vertex keeps its interior flag iff no processed
interior A vertex lies within 1e-15 of it; the count tracks the flags. -/
theorem dedupOuter_spec (a b : List Pt) (flagsA flagsB : List Bool)
    (hlen : flagsB.length = b.length) (m : ℕ) (hm : m ≤ a.length) :
    (((List.range m).foldl (dedupOuterStep a b flagsA)
        (flagsB, countTrue flagsB)).1).length = b.length ∧
    ((List.range m).foldl (dedupOuterStep a b flagsA)
        (flagsB, countTrue flagsB)).2
      = countTrue ((List.range m).foldl (dedupOuterStep a b flagsA)
        (flagsB, countTrue flagsB)).1 ∧
    ∀ j, (((List.range m).foldl (dedupOuterStep a b flagsA)
        (flagsB, countTrue flagsB)).1.getD j false = true ↔
      (flagsB.getD j false = true ∧
        ¬∃ i, i < m ∧ flagsA.getD i false = true ∧
          distSq (a.getD i default) (b.getD j default) < 1 / 10 ^ 30)) := by
  induction m with
  | zero =>
    refine ⟨hlen, rfl, ?_⟩
    intro j
    simp
  | succ m ih =>
    obtain ⟨ih1, ih2, ih3⟩ := ih (by omega)
    rw [List.range_succ, List.foldl_append, List.foldl_cons, List.foldl_nil]
    set r := (List.range m).foldl (dedupOuterStep a b flagsA)
      (flagsB, countTrue flagsB) with hr
    unfold dedupOuterStep
    by_cases hfa : flagsA.getD m false = true
    · rw [if_pos hfa]
      obtain ⟨s1, s2, s3⟩ := dedupInner_spec a b m b.length le_rfl r ih1 ih2
      refine ⟨s1, s2, ?_⟩
      intro j
      rw [s3 j, ih3 j]
      constructor
      · rintro ⟨⟨h1, h2⟩, h3⟩
        refine ⟨h1, ?_⟩
        rintro ⟨i, hi, hfi, hdi⟩
        rcases Nat.lt_succ_iff_lt_or_eq.mp hi with hi' | hi'
        · exact h2 ⟨i, hi', hfi, hdi⟩
        · subst hi'
          have hjb : j < b.length := by
            have := getD_true_lt_length flagsB j h1
            omega
          exact h3 ⟨hjb, hdi⟩
      · rintro ⟨h1, h2⟩
        have hjb : j < b.length := by
          have := getD_true_lt_length flagsB j h1
          omega
        refine ⟨⟨h1, ?_⟩, ?_⟩
        · rintro ⟨i, hi, hfi, hdi⟩
          exact h2 ⟨i, by omega, hfi, hdi⟩
        · rintro ⟨_, hdj⟩
          exact h2 ⟨m, by omega, hfa, hdj⟩
    · rw [if_neg hfa]
      refine ⟨ih1, ih2, ?_⟩
      intro j
      rw [ih3 j]
      constructor
      · rintro ⟨h1, h2⟩
        refine ⟨h1, ?_⟩
        rintro ⟨i, hi, hfi, hdi⟩
        rcases Nat.lt_succ_iff_lt_or_eq.mp hi with hi' | hi'
        · exact h2 ⟨i, hi', hfi, hdi⟩
        · subst hi'
          exact hfa hfi
      · rintro ⟨h1, h2⟩
        exact ⟨h1, fun ⟨i, hi, hfi, hdi⟩ => h2 ⟨i, by omega, hfi, hdi⟩⟩

/-- C5: in the coincident-vertex dedup of `Intersection2DPolygon`, every
interior vertex of B within 1e-15 of some interior vertex of A is removed
from B's interior list; the final interior flags are exactly the incoming
flags minus such coincidences; and the interior count of B equals the
number of remaining flags (each removal decremented it once). -/
theorem C5_dedup_removes_coincident_interior (a b : List Pt)
    (flagsA flagsB : List Bool) (hlen : flagsB.length = b.length)
    (j : ℕ) (hj : flagsB.getD j false = true)
    (hnear : ∃ i, i < a.length ∧ flagsA.getD i false = true ∧
      distSq (a.getD i default) (b.getD j default) < 1 / 10 ^ 30) :
    (dedupInteriorB a b flagsA flagsB).1.getD j false = false ∧
    (dedupInteriorB a b flagsA flagsB).2
      = countTrue (dedupInteriorB a b flagsA flagsB).1 ∧
    ∀ j', ((dedupInteriorB a b flagsA flagsB).1.getD j' false = true ↔
      (flagsB.getD j' false = true ∧
        ¬∃ i, i < a.length ∧ flagsA.getD i false = true ∧
          distSq (a.getD i default) (b.getD j' default) < 1 / 10 ^ 30)) := by
  obtain ⟨s1, s2, s3⟩ :=
    dedupOuter_spec a b flagsA flagsB hlen a.length le_rfl
  refine ⟨?_, s2, s3⟩
  have := s3 j
  rw [show (dedupInteriorB a b flagsA flagsB) = (List.range a.length).foldl
    (dedupOuterStep a b flagsA) (flagsB, countTrue flagsB) from rfl]
  cases hv : ((List.range a.length).foldl (dedupOuterStep a b flagsA)
      (flagsB, countTrue flagsB)).1.getD j false
  · rfl
  · rw [hv] at this
    exact absurd hnear (((this.mp rfl)).2)

/-- Witness for C5: two coincident interior vertices (distance 0) at a
concrete input; the B copy is dropped, the count follows the flags. -/
theorem C5_dedup_removes_coincident_interior_witness :
    ([true] : List Bool).length = ([(⟨0, 0⟩ : Pt)]).length ∧
    ([true] : List Bool).getD 0 false = true ∧
    (∃ i, i < ([(⟨0, 0⟩ : Pt)]).length ∧ ([true] : List Bool).getD i false = true ∧
      distSq (([(⟨0, 0⟩ : Pt)]).getD i default) (([(⟨0, 0⟩ : Pt)]).getD 0 default)
        < 1 / 10 ^ 30) ∧
    (dedupInteriorB [⟨0, 0⟩] [⟨0, 0⟩] [true] [true]).1.getD 0 false = false :=
  ⟨rfl, rfl, ⟨0, by decide, rfl, by norm_num [distSq, magSq]⟩,
   (C5_dedup_removes_coincident_interior [⟨0, 0⟩] [⟨0, 0⟩] [true] [true] rfl 0 rfl
     ⟨0, by decide, rfl, by norm_num [distSq, magSq]⟩).1⟩

/-- `interiorFlags` yields one flag per vertex of the classified polygon. -/
theorem interiorFlags_length (a b : List Pt) :
    (interiorFlags a b).length = a.length := by
  simp [interiorFlags]

/-- `countTrue` as a count over index positions. -/
theorem countTrue_eq_filter_range (l : List Bool) :
    countTrue l = ((List.range l.length).filter (fun i => l.getD i false)).length := by
  induction l with
  | nil => rfl
  | cons a l ih =>
    rw [countTrue_cons, List.length_cons, List.range_succ_eq_map, List.filter_cons,
      List.filter_map]
    have hpred : ((fun i => (a :: l).getD i false) ∘ Nat.succ)
        = (fun i => l.getD i false) := by
      funext i
      simp [Function.comp, List.getD_cons_succ]
    rw [hpred]
    by_cases ha : a = true
    · subst ha
      simp [ih]
      omega
    · have ha' : a = false := by simpa using ha
      subst ha'
      simp [ih]

/-- The surviving-vertex write loop of `CheckPolySegs` never hits its
overflow guard: it emits exactly the vertices fixed by `newIDs`. -/
theorem segsWrite_fold_eq (p : List Pt) (newIDs : List ℕ) (n m : ℕ) (hm : m ≤ n) :
    (List.range m).foldl
      (segsWriteStep p newIDs
        (((List.range n).filter (fun i => newIDs.getD i 0 = i)).length))
      (some [])
      = some (((List.range m).filter (fun i => newIDs.getD i 0 = i)).map
          (fun i => p.getD i default)) := by
  induction m with
  | zero => rfl
  | succ m ih =>
    rw [List.range_succ, List.foldl_append, List.foldl_cons, List.foldl_nil,
      ih (by omega)]
    simp only [segsWriteStep]
    by_cases hs : newIDs.getD m 0 = m
    · have hle : ((List.range m).filter (fun i => newIDs.getD i 0 = i)).length
          ≤ ((List.range n).filter (fun i => newIDs.getD i 0 = i)).length :=
        (List.Sublist.filter _ (List.range_sublist.mpr (by omega))).length_le
      rw [if_pos hs]
      simp only [List.length_map]
      rw [if_neg (by omega)]
      rw [List.filter_append, List.filter_cons]
      simp [← List.getD_eq_getElem?_getD, hs]
    · rw [if_neg hs]
      rw [List.filter_append, List.filter_cons]
      simp [← List.getD_eq_getElem?_getD, hs]

/-- `CheckPolySegs` never returns an error: the guard
`k > numNewPoints` of the write loop is unreachable. -/
theorem checkPolySegs_err (p : List Pt) (tol : ℚ) :
    (CheckPolySegs p tol).1 = NO_FACE_GEOM_ERROR := by
  unfold CheckPolySegs
  by_cases h : (((List.range p.length).filter (fun i =>
      ((List.range p.length).foldl (segsCollapseStep p tol)
        (List.range p.length)).getD i 0 = i)).length) < 3
  · rw [if_pos h]
  · rw [if_neg h, segsWrite_fold_eq p _ p.length p.length le_rfl]

/-- The fill loop appends exactly the flagged vertices when it returns. -/
theorem fill_fold_eq (poly : List Pt) (flags : List Bool) (m : ℕ)
    (acc out : List Pt)
    (h : (List.range m).foldl (fillStep poly flags) (some acc) = some out) :
    out = acc ++ ((List.range m).filter (fun i => flags.getD i false)).map
      (fun i => poly.getD i default) := by
  induction m generalizing out with
  | zero =>
    simp only [List.range_zero, List.foldl_nil, Option.some_inj] at h
    simp [h.symm]
  | succ m ih =>
    rw [List.range_succ, List.foldl_append, List.foldl_cons, List.foldl_nil] at h
    rw [List.range_succ]
    cases hmid : (List.range m).foldl (fillStep poly flags) (some acc) with
    | none => rw [hmid] at h; exact absurd h (by simp [fillStep])
    | some acc1 =>
      rw [hmid] at h
      have hacc1 := ih acc1 hmid
      simp only [fillStep] at h
      rw [List.filter_append, List.filter_cons]
      by_cases hf : flags.getD m false
      · rw [if_pos hf] at h
        by_cases hg : acc1.length > 16
        · rw [if_pos hg] at h; exact absurd h (by simp)
        · rw [if_neg hg] at h
          simp only [Option.some_inj] at h
          simp [h.symm, hacc1, ← List.getD_eq_getElem?_getD, hf]
      · rw [if_neg hf] at h
        simp only [Option.some_inj] at h
        simp [h.symm, hacc1, ← List.getD_eq_getElem?_getD, hf]

/-- `fillInterior` output, when it returns: input plus flagged vertices. -/
theorem fillInterior_eq (poly : List Pt) (flags : List Bool) (acc out : List Pt)
    (h : fillInterior poly flags (some acc) = some out) :
    out = acc ++ ((List.range poly.length).filter
      (fun i => flags.getD i false)).map (fun i => poly.getD i default) :=
  fill_fold_eq poly flags poly.length acc out h

/-- Folding the fill step from `none` stays `none`. -/
theorem fill_fold_none (poly : List Pt) (flags : List Bool) (l : List ℕ) :
    l.foldl (fillStep poly flags) none = none := by
  induction l with
  | nil => rfl
  | cons a l ih => simpa [fillStep] using ih

/-- C4: whenever the collected overlap vertices (segment/segment
intersections plus interior vertices of both polygons) number fewer than 3
after `PolyReorder` and the `CheckPolySegs` edge collapse (or fewer than 3
were collected in the first place), `Intersection2DPolygon` reports overlap
area 0 with `NO_FACE_GEOM_ERROR` — a zero-area overlap, not a tagged error.
Hypotheses restrict to the C++ domain: 3- or 4-vertex input polygons
passing the orientation check, neither containment fast path taken, and at
most 8 collected vertices (the `CheckPolySegs`/`PolyReorder` array bound). -/
theorem C4_degenerate_overlap_zero_area_no_error (A B : List Pt)
    (posTol lenTol : ℚ) (orientCheck : Bool)
    (hA3 : 3 ≤ A.length) (hA4 : A.length ≤ 4)
    (hB3 : 3 ≤ B.length) (hB4 : B.length ≤ 4)
    (hoA : CheckPolyOrientation A = true) (hoB : CheckPolyOrientation B = true)
    (hnotA : countTrue (interiorFlags A B) ≠ A.length)
    (hnotB : countTrue (interiorFlags B A) ≠ B.length)
    (collected : List Pt)
    (hcol : segAndInteriorVerts A B posTol = some collected)
    (hsize : collected.length ≤ 8)
    (hdeg : (if 2 < collected.length
        then (CheckPolySegs (PolyReorder collected) lenTol).2.1
        else collected.length) < 3) :
    (Intersection2DPolygon A B posTol lenTol orientCheck).err
      = NO_FACE_GEOM_ERROR ∧
    (Intersection2DPolygon A B posTol lenTol orientCheck).area = 0 := by
  have hA0 := interiorFlags_length A B
  have hB0 := interiorFlags_length B A
  obtain ⟨dlen, dcount, _⟩ := dedupOuter_spec A B (interiorFlags A B)
    (interiorFlags B A) hB0 A.length le_rfl
  have dlen' : (dedupInteriorB A B (interiorFlags A B) (interiorFlags B A)).1.length
      = B.length := dlen
  have dcount' : (dedupInteriorB A B (interiorFlags A B) (interiorFlags B A)).2
      = countTrue (dedupInteriorB A B (interiorFlags A B) (interiorFlags B A)).1 :=
    dcount
  unfold Intersection2DPolygon
  rw [if_neg (by omega)]
  rw [if_neg (by simp [hoA, hoB])]
  simp only []
  rw [if_neg hnotA, if_neg hnotB]
  unfold segAndInteriorVerts at hcol
  simp only [] at hcol
  cases hseg : segSegLoop A B (interiorFlags A B)
      (dedupInteriorB A B (interiorFlags A B) (interiorFlags B A)).1 posTol with
  | none =>
    rw [hseg] at hcol
    exact absurd hcol (by simp)
  | some inters =>
    rw [hseg] at hcol
    have hcol2 : fillInterior B
        (dedupInteriorB A B (interiorFlags A B) (interiorFlags B A)).1
        (fillInterior A (interiorFlags A B)
          (some ((inters.filter (fun r => r.1)).map (fun r => r.2))))
        = some collected := hcol
    clear hcol
    dsimp only
    by_cases hempty : ((inters.filter (fun r => r.1)).map (fun r => r.2)).length = 0 ∧
        (dedupInteriorB A B (interiorFlags A B) (interiorFlags B A)).2 = 0 ∧
        countTrue (interiorFlags A B) = 0
    · rw [if_pos hempty]
      exact ⟨rfl, rfl⟩
    · rw [if_neg hempty]
      cases hfillA : fillInterior A (interiorFlags A B)
          (some ((inters.filter (fun r => r.1)).map (fun r => r.2))) with
      | none =>
        rw [hfillA] at hcol2
        rw [show fillInterior B
            (dedupInteriorB A B (interiorFlags A B) (interiorFlags B A)).1 none
            = none from fill_fold_none _ _ _] at hcol2
        exact absurd hcol2 (by simp)
      | some mid =>
        rw [hfillA] at hcol2
        cases hfillB : fillInterior B
            (dedupInteriorB A B (interiorFlags A B) (interiorFlags B A)).1
            (some mid) with
        | none =>
          rw [hfillB] at hcol2
          exact absurd hcol2 (by simp)
        | some col2 =>
          rw [hfillB] at hcol2
          have hc2 : col2 = collected := by
            injection hcol2
          subst hc2
          dsimp only
          have hmid := fillInterior_eq A (interiorFlags A B) _ mid hfillA
          have hcol2 := fillInterior_eq B
            (dedupInteriorB A B (interiorFlags A B) (interiorFlags B A)).1
            mid col2 hfillB
          have hcntA : ((List.range A.length).filter
              (fun i => (interiorFlags A B).getD i false)).length
              = countTrue (interiorFlags A B) := by
            rw [countTrue_eq_filter_range (interiorFlags A B), hA0]
          have hcntB : ((List.range B.length).filter
              (fun i => ((dedupInteriorB A B (interiorFlags A B)
                (interiorFlags B A)).1).getD i false)).length
              = (dedupInteriorB A B (interiorFlags A B) (interiorFlags B A)).2 := by
            rw [dcount', countTrue_eq_filter_range, dlen']
          have hlenc : col2.length
              = ((inters.filter (fun r => r.1)).map (fun r => r.2)).length
                + countTrue (interiorFlags A B)
                + (dedupInteriorB A B (interiorFlags A B) (interiorFlags B A)).2 := by
            rw [hcol2, hmid]
            simp only [List.length_append, List.length_map]
            rw [hcntA, hcntB]
          by_cases hgt : ((inters.filter (fun r => r.1)).map (fun r => r.2)).length
              + countTrue (interiorFlags A B)
              + (dedupInteriorB A B (interiorFlags A B) (interiorFlags B A)).2 > 2
          · rw [if_pos hgt]
            rw [if_neg (by simp [checkPolySegs_err])]
            rw [if_pos ?hlt3]
            case hlt3 =>
              rw [if_pos (by omega : 2 < col2.length)] at hdeg
              exact hdeg
            exact ⟨rfl, rfl⟩
          · rw [if_neg hgt]
            exact ⟨rfl, rfl⟩

/-- Witness for C4: two distant unit squares collect no overlap vertices;
the claim's theorem applied there gives area 0 without error. -/
theorem C4_degenerate_overlap_zero_area_no_error_witness :
    segAndInteriorVerts sqA sqFar 0 = some [] ∧
    countTrue (interiorFlags sqA sqFar) ≠ sqA.length ∧
    (Intersection2DPolygon sqA sqFar 0 0 true).err = NO_FACE_GEOM_ERROR ∧
    (Intersection2DPolygon sqA sqFar 0 0 true).area = 0 :=
  ⟨by decide, by decide,
   (C4_degenerate_overlap_zero_area_no_error sqA sqFar 0 0 true (by decide)
     (by decide) (by decide) (by decide) (by decide) (by decide) (by decide)
     (by decide) [] (by decide) (by decide) (by decide)).1,
   (C4_degenerate_overlap_zero_area_no_error sqA sqFar 0 0 true (by decide)
     (by decide) (by decide) (by decide) (by decide) (by decide) (by decide)
     (by decide) [] (by decide) (by decide) (by decide)).2⟩

/-- C3: overlap symmetry fails as a point set.  `sqA`'s vertex (1,1) and
`sqB`'s vertex (1-1e-16, 1-1e-16) are each interior to the other square and
within 1e-15 of each other, so the dedup keeps the first polygon's copy:
`Intersection2DPolygon (sqA, sqB)` returns an overlap polygon containing
(1,1) while `Intersection2DPolygon (sqB, sqA)` returns one containing
(1-1e-16, 1-1e-16) instead — both without error and with equal areas, but
different point sets (the spec requires equality up to vertex order). -/
theorem C3_overlap_point_sets_differ :
    (Intersection2DPolygon sqA sqB 0 0 true).err = NO_FACE_GEOM_ERROR ∧
    (Intersection2DPolygon sqB sqA 0 0 true).err = NO_FACE_GEOM_ERROR ∧
    (Intersection2DPolygon sqA sqB 0 0 true).poly
      = [⟨1, 1 - tC3⟩, ⟨1, 1⟩, ⟨1 - tC3, 1⟩] ∧
    (Intersection2DPolygon sqB sqA 0 0 true).poly
      = [⟨1, 1 - tC3⟩, ⟨1 - tC3, 1⟩, ⟨1 - tC3, 1 - tC3⟩] ∧
    (⟨1, 1⟩ : Pt) ∈ (Intersection2DPolygon sqA sqB 0 0 true).poly ∧
    (⟨1, 1⟩ : Pt) ∉ (Intersection2DPolygon sqB sqA 0 0 true).poly ∧
    (Intersection2DPolygon sqA sqB 0 0 true).area
      = (Intersection2DPolygon sqB sqA 0 0 true).area := by decide

/-- `getD` on `List.range`. -/
theorem getD_range (n i : ℕ) (h : i < n) : (List.range n).getD i 0 = i := by
  rw [List.getD_eq_getElem?_getD, List.getElem?_range h]
  rfl

/-- Reading every index back gives the original list. -/
theorem map_getD_self (p : List Pt) :
    (List.range p.length).map (fun i => p.getD i default) = p := by
  induction p with
  | nil => rfl
  | cons a l ih =>
    rw [List.length_cons, List.range_succ_eq_map, List.map_cons, List.map_map]
    simp only [List.getD_cons_zero, Function.comp_def, List.getD_cons_succ]
    rw [show (fun i => l.getD i default) = fun i => l.getD i default from rfl] at ih
    exact congrArg (a :: ·) ih

/-- Writing an entry's own value back is the identity. -/
theorem set_getD_self (l : List ℕ) (i : ℕ) (h : i < l.length) :
    l.set i (l.getD i 0) = l := by
  apply List.ext_getElem (by simp)
  intro n h1 h2
  rw [List.getElem_set]
  split
  · next heq =>
    subst heq
    rw [List.getD_eq_getElem?_getD, List.getElem?_eq_getElem h]
    rfl
  · rfl

/-- Setting position 1 of `List.range n` to 1 is the identity. -/
theorem range_set_one (n : ℕ) (h : 1 < n) : (List.range n).set 1 1 = List.range n := by
  have := set_getD_self (List.range n) 1 (by simpa using h)
  rwa [getD_range n 1 h] at this

/-- A list-map sum as a `Finset.range` sum over indexed reads. -/
theorem sum_map_eq_sum_range (f : Pt → ℚ) (p : List Pt) :
    (p.map f).sum = ∑ k ∈ Finset.range p.length, f (p.getD k default) := by
  induction p with
  | nil => simp
  | cons a l ih =>
    rw [List.map_cons, List.sum_cons, List.length_cons, Finset.sum_range_succ']
    simp only [List.getD_cons_succ, List.getD_cons_zero, ih]
    ring

/-- The exact `a/√s > -1` comparison holds whenever the pair satisfies the
Lagrange identity with a positive cross component. -/
theorem cosValGtQ_init (a R L c : ℚ) (hid : R * L = a * a + c * c) (hc : 0 < c) :
    cosValGtQ a (R * L) (-1) 1 = true := by
  unfold cosValGtQ
  by_cases ha : (0 : ℚ) ≤ a
  · rw [if_pos ha, if_neg (by norm_num)]
  · rw [if_neg ha, if_neg (by norm_num)]
    simp only [decide_eq_true_eq]
    nlinarith

/-- The exact comparison `a_k/√(R s_k) > a_j/√(R s_j)` fails when both pairs
satisfy the Lagrange identity with positive cross components and the
cross-multiplied cosine inequality favors `j`. -/
theorem cosValGtQ_not_beat (aj cj ak ck R sj sk : ℚ)
    (hidj : R * sj = aj * aj + cj * cj) (hidk : R * sk = ak * ak + ck * ck)
    (hcj : 0 < cj) (hck : 0 < ck) (hR : 0 ≤ R)
    (hlt : ak * cj < aj * ck) :
    cosValGtQ ak (R * sk) aj (R * sj) = false := by
  have hRpos : 0 < R := by
    by_contra hno
    have hR0 : R = 0 := le_antisymm (not_lt.mp hno) hR
    rw [hR0] at hidj
    nlinarith [sq_nonneg aj, mul_pos hcj hcj]
  unfold cosValGtQ
  by_cases hak : (0 : ℚ) ≤ ak <;> by_cases haj : (0 : ℚ) ≤ aj
  · rw [if_pos hak, if_pos haj]
    simp only [decide_eq_false_iff_not, not_lt]
    nlinarith [mul_nonneg haj hck.le, mul_nonneg hak hcj.le,
      mul_pos hRpos (mul_pos hcj hck)]
  · rw [if_pos hak, if_neg haj]
    exfalso
    nlinarith [mul_nonneg hak hcj.le]
  · rw [if_neg hak, if_pos haj]
  · rw [if_neg hak, if_neg haj]
    simp only [decide_eq_false_iff_not, not_lt]
    nlinarith [mul_pos (neg_pos.mpr (lt_of_not_le hak)) hcj,
      mul_pos (neg_pos.mpr (lt_of_not_le haj)) hck]

/-- The greedy inner fold does not move off a state that no candidate
beats. -/
theorem foldl_reorder_no_improve (p : List Pt) (ids : List ℕ) (pI : Pt)
    (refx refy refMagSq : ℚ) (st : ℚ × ℚ × ℕ) (l : List ℕ)
    (h : ∀ j ∈ l,
      cosValGtQ (((p.getD (ids.getD j 0) default).x - pI.x) * refx +
          ((p.getD (ids.getD j 0) default).y - pI.y) * refy)
        (refMagSq * magSq ((p.getD (ids.getD j 0) default).x - pI.x)
          ((p.getD (ids.getD j 0) default).y - pI.y)) st.1 st.2.1 = false) :
    l.foldl (polyReorderNextStep p ids pI refx refy refMagSq) st = st := by
  induction l with
  | nil => rfl
  | cons a l ih =>
    rw [List.foldl_cons]
    have ha := h a (List.mem_cons_self a l)
    unfold polyReorderNextStep
    rw [if_neg (by simpa using ha)]
    exact ih (fun j hj => h j (List.mem_cons_of_mem a hj))

/-- On a strictly convex CCW vertex list, the first stage of `PolyReorder`
accepts the segment `(v0, v1)`: all other vertices lie strictly on its left
and the segment normal points toward the centroid. -/
theorem polyReorderFirstSeg_convex (p : List Pt) (h3 : 3 ≤ p.length)
    (hconv : ∀ k, k < p.length → ∀ j, j < k → ∀ i, i < j →
      0 < crossP (psub (p.getD j default) (p.getD i default))
        (psub (p.getD k default) (p.getD i default))) :
    polyReorderFirstSeg p (VertexAvgCentroid p) = some 1 := by
  unfold polyReorderFirstSeg
  have hsplit : List.range' 1 (p.length - 1) = 1 :: List.range' 2 (p.length - 2) := by
    have h2 : p.length - 1 = (p.length - 2) + 1 := by omega
    rw [h2, List.range'_succ]
  show (List.range' 1 (p.length - 1)).find? _ = some 1
  rw [hsplit]
  apply List.find?_cons_of_pos
  simp only [Bool.and_eq_true, Bool.or_eq_true, Bool.not_eq_true', decide_eq_true_eq]
  set p0 := p.getD 0 default with hp0
  set p1 := p.getD 1 default with hp1
  set nx : ℚ := -(p1.y - p0.y) with hnx
  set ny : ℚ := p1.x - p0.x with hny
  constructor
  · left
    rw [List.any_eq_false]
    intro q hq
    simp only [List.mem_map, List.mem_filter, List.mem_range] at hq
    obtain ⟨k, ⟨hkn, hk01⟩, rfl⟩ := hq
    have hk01' : k ≠ 0 ∧ k ≠ 1 := by simpa using hk01
    have hk2 : 1 < k := by omega
    have hcr := hconv k hkn 1 hk2 0 (by omega)
    simp only [decide_eq_true_eq, not_lt]
    have heq : ((p.getD k default).x - p0.x) * nx + ((p.getD k default).y - p0.y) * ny
        = crossP (psub p1 p0) (psub (p.getD k default) p0) := by
      unfold crossP psub
      rw [hnx, hny]
      ring
    rw [heq]
    exact hcr.le
  · -- centroid side: n * prod equals the sum of the positive cross products
    have hnlen : (0 : ℚ) < (p.length : ℚ) := by
      exact_mod_cast Nat.lt_of_lt_of_le (by norm_num) h3
    have hcx : (VertexAvgCentroid p).x
        = (∑ k ∈ Finset.range p.length, (p.getD k default).x) / (p.length : ℚ) := by
      unfold VertexAvgCentroid
      rw [sum_map_eq_sum_range Pt.x p]
    have hcy : (VertexAvgCentroid p).y
        = (∑ k ∈ Finset.range p.length, (p.getD k default).y) / (p.length : ℚ) := by
      unfold VertexAvgCentroid
      rw [sum_map_eq_sum_range Pt.y p]
    have hSpos : 0 < ∑ k ∈ Finset.range p.length,
        (nx * ((p.getD k default).x - p0.x) + ny * ((p.getD k default).y - p0.y)) := by
      apply Finset.sum_pos'
      · intro k hk
        rw [Finset.mem_range] at hk
        rcases Nat.lt_or_ge k 2 with hk2 | hk2
        · interval_cases k
          · simp [hp0]
          · rw [hnx, hny, hp1]
            ring_nf
            rfl
        · have hcr := hconv k hk 1 (by omega) 0 (by omega)
          have heq : nx * ((p.getD k default).x - p0.x) + ny * ((p.getD k default).y - p0.y)
              = crossP (psub p1 p0) (psub (p.getD k default) p0) := by
            unfold crossP psub
            rw [hnx, hny]
            ring
          rw [heq]
          exact hcr.le
      · refine ⟨2, Finset.mem_range.mpr (by omega), ?_⟩
        have hcr := hconv 2 (by omega) 1 (by omega) 0 (by omega)
        have heq : nx * ((p.getD 2 default).x - p0.x) + ny * ((p.getD 2 default).y - p0.y)
            = crossP (psub p1 p0) (psub (p.getD 2 default) p0) := by
          unfold crossP psub
          rw [hnx, hny]
          ring
        rw [heq]
        exact hcr
    have hsum : ∑ k ∈ Finset.range p.length,
        (nx * ((p.getD k default).x - p0.x) + ny * ((p.getD k default).y - p0.y))
        = nx * ((∑ k ∈ Finset.range p.length, (p.getD k default).x)
            - (p.length : ℚ) * p0.x)
          + ny * ((∑ k ∈ Finset.range p.length, (p.getD k default).y)
            - (p.length : ℚ) * p0.y) := by
      rw [Finset.sum_add_distrib, ← Finset.mul_sum, ← Finset.mul_sum]
      rw [Finset.sum_sub_distrib, Finset.sum_sub_distrib]
      simp only [Finset.sum_const, Finset.card_range, nsmul_eq_mul]
    rw [hcx, hcy]
    rw [hsum] at hSpos
    have hgoal : nx * ((∑ k ∈ Finset.range p.length, (p.getD k default).x)
          / (p.length : ℚ) - p0.x)
        + ny * ((∑ k ∈ Finset.range p.length, (p.getD k default).y)
          / (p.length : ℚ) - p0.y)
        = (nx * ((∑ k ∈ Finset.range p.length, (p.getD k default).x)
            - (p.length : ℚ) * p0.x)
          + ny * ((∑ k ∈ Finset.range p.length, (p.getD k default).y)
            - (p.length : ℚ) * p0.y)) / (p.length : ℚ) := by
      field_simp
    rw [hgoal]
    exact div_pos hSpos hnlen

/-- On a strictly convex CCW vertex list with the identity id permutation,
the greedy stage of `PolyReorder` picks the very next vertex `2 + i`: the
immediate successor strictly beats the initial running maximum `-1`, and by
convexity every later vertex makes a strictly larger angle with the
reference segment. -/
theorem polyReorderNext_convex (p : List Pt) (i : ℕ) (hi : i + 3 < p.length)
    (hconv : ∀ k, k < p.length → ∀ j, j < k → ∀ l, l < j →
      0 < crossP (psub (p.getD j default) (p.getD l default))
        (psub (p.getD k default) (p.getD l default))) :
    polyReorderNext p (List.range p.length) i p.length = 2 + i := by
  have hgi : (List.range p.length).getD i 0 = i := getD_range _ i (by omega)
  have hgi1 : (List.range p.length).getD (i + 1) 0 = i + 1 := getD_range _ (i + 1) (by omega)
  show ((List.range' (2 + i) (p.length - (2 + i))).foldl
      (polyReorderNextStep p (List.range p.length)
        (p.getD ((List.range p.length).getD i 0) default)
        ((p.getD ((List.range p.length).getD (i + 1) 0) default).x
          - (p.getD ((List.range p.length).getD i 0) default).x)
        ((p.getD ((List.range p.length).getD (i + 1) 0) default).y
          - (p.getD ((List.range p.length).getD i 0) default).y)
        (magSq ((p.getD ((List.range p.length).getD (i + 1) 0) default).x
            - (p.getD ((List.range p.length).getD i 0) default).x)
          ((p.getD ((List.range p.length).getD (i + 1) 0) default).y
            - (p.getD ((List.range p.length).getD i 0) default).y)))
      (-1, 1, 2 + i)).2.2 = 2 + i
  rw [hgi, hgi1]
  set pI := p.getD i default with hpI
  set pI1 := p.getD (i + 1) default with hpI1
  set ux := pI1.x - pI.x with hux
  set uy := pI1.y - pI.y with huy
  set p2 := p.getD (2 + i) default with hp2
  set a2 := (p2.x - pI.x) * ux + (p2.y - pI.y) * uy with ha2
  set L2 := magSq (p2.x - pI.x) (p2.y - pI.y) with hL2
  set c2 := crossP (psub pI1 pI) (psub p2 pI) with hc2def
  have hc2 : 0 < c2 := by
    rw [hc2def, hpI1, hpI, hp2]
    exact hconv (2 + i) (by omega) (i + 1) (by omega) i (by omega)
  have hid2 : magSq ux uy * L2 = a2 * a2 + c2 * c2 := by
    rw [ha2, hL2, hc2def, hux, huy]
    unfold magSq crossP psub
    ring
  have hRpos : 0 < magSq ux uy := by
    by_contra hno
    have hRle : magSq ux uy ≤ 0 := not_lt.mp hno
    have hL2nn : 0 ≤ L2 := by
      rw [hL2]
      unfold magSq
      exact add_nonneg (mul_self_nonneg _) (mul_self_nonneg _)
    nlinarith [mul_nonpos_of_nonpos_of_nonneg hRle hL2nn, sq_nonneg a2,
      mul_pos hc2 hc2]
  have hsplit : List.range' (2 + i) (p.length - (2 + i))
      = (2 + i) :: List.range' (3 + i) (p.length - (3 + i)) := by
    rw [show p.length - (2 + i) = (p.length - (3 + i)) + 1 from by omega,
      List.range'_succ, show 2 + i + 1 = 3 + i from by omega]
  rw [hsplit, List.foldl_cons]
  have hstep1 : polyReorderNextStep p (List.range p.length) pI ux uy (magSq ux uy)
      (-1, 1, 2 + i) (2 + i) = (a2, magSq ux uy * L2, 2 + i) := by
    unfold polyReorderNextStep
    rw [getD_range _ (2 + i) (by omega)]
    dsimp only
    rw [← hp2, ← ha2, ← hL2]
    rw [if_pos (cosValGtQ_init a2 (magSq ux uy) L2 c2 hid2 hc2)]
  rw [hstep1]
  have hall : ∀ j ∈ List.range' (3 + i) (p.length - (3 + i)),
      cosValGtQ (((p.getD ((List.range p.length).getD j 0) default).x - pI.x) * ux +
          ((p.getD ((List.range p.length).getD j 0) default).y - pI.y) * uy)
        (magSq ux uy *
          magSq ((p.getD ((List.range p.length).getD j 0) default).x - pI.x)
            ((p.getD ((List.range p.length).getD j 0) default).y - pI.y))
        a2 (magSq ux uy * L2) = false := by
    intro j hj
    rw [List.mem_range'_1] at hj
    have hjn : j < p.length := by omega
    rw [getD_range _ j hjn]
    set pj := p.getD j default with hpj
    set aj := (pj.x - pI.x) * ux + (pj.y - pI.y) * uy with haj
    set Lj := magSq (pj.x - pI.x) (pj.y - pI.y) with hLj
    set cj := crossP (psub pI1 pI) (psub pj pI) with hcjdef
    have hcj : 0 < cj := by
      rw [hcjdef, hpI1, hpI, hpj]
      exact hconv j hjn (i + 1) (by omega) i (by omega)
    have hidj : magSq ux uy * Lj = aj * aj + cj * cj := by
      rw [haj, hLj, hcjdef, hux, huy]
      unfold magSq crossP psub
      ring
    have hcross : 0 < crossP (psub p2 pI) (psub pj pI) := by
      rw [hp2, hpI, hpj]
      exact hconv j hjn (2 + i) (by omega) i (by omega)
    have hkey : a2 * cj - aj * c2
        = crossP (psub p2 pI) (psub pj pI) * magSq ux uy := by
      rw [ha2, haj, hcjdef, hc2def, hux, huy]
      unfold magSq crossP psub
      ring
    have hlt : aj * c2 < a2 * cj := by
      nlinarith [hkey, mul_pos hcross hRpos]
    exact cosValGtQ_not_beat a2 c2 aj cj (magSq ux uy) L2 Lj hid2 hidj hc2 hcj
      hRpos.le hlt
  rw [foldl_reorder_no_improve p (List.range p.length) pI ux uy (magSq ux uy)
    (a2, magSq ux uy * L2, 2 + i) (List.range' (3 + i) (p.length - (3 + i))) hall]

/-- A fold whose every step fixes the state is the identity. -/
theorem foldl_fixed (f : List ℕ → ℕ → List ℕ) (x : List ℕ) (l : List ℕ)
    (h : ∀ b ∈ l, f x b = x) : l.foldl f x = x := by
  induction l with
  | nil => rfl
  | cons a t ih =>
    rw [List.foldl_cons, h a (List.mem_cons_self a t)]
    exact ih (fun b hb => h b (List.mem_cons_of_mem a hb))

/-- Under strict convexity the outer greedy loop of `PolyReorder` never
moves any id: each step picks `2 + i` and swaps it with itself. -/
theorem polyReorder_fold_id (p : List Pt)
    (hconv : ∀ k, k < p.length → ∀ j, j < k → ∀ l, l < j →
      0 < crossP (psub (p.getD j default) (p.getD l default))
        (psub (p.getD k default) (p.getD l default))) :
    (List.range (p.length - 3)).foldl (polyReorderSwapStep p p.length)
      (List.range p.length) = List.range p.length := by
  apply foldl_fixed
  intro i hi
  rw [List.mem_range] at hi
  unfold polyReorderSwapStep
  rw [polyReorderNext_convex p i (by omega) hconv]
  show ((List.range p.length).set (2 + i) ((List.range p.length).getD (2 + i) 0)).set
      (2 + i) ((List.range p.length).getD (2 + i) 0) = List.range p.length
  rw [set_getD_self (List.range p.length) (2 + i)
    (by rw [List.length_range]; omega)]
  rw [set_getD_self (List.range p.length) (2 + i)
    (by rw [List.length_range]; omega)]

/-- C7: applying `PolyReorder` to a polygon whose vertices are already
ordered counter-clockwise and are in strictly convex position (every index
triple in list order makes a strict left turn) leaves the vertex sequence
unchanged — the identity holds exactly, with the starting vertex kept in
place, which is the strongest form of "identity up to rotation of the
starting index". -/
theorem C7_polyReorder_identity_on_ccw_convex (p : List Pt)
    (h3 : 3 ≤ p.length)
    (hconv : ∀ k, k < p.length → ∀ j, j < k → ∀ l, l < j →
      0 < crossP (psub (p.getD j default) (p.getD l default))
        (psub (p.getD k default) (p.getD l default))) :
    PolyReorder p = p := by
  have hids1 : (match polyReorderFirstSeg p (VertexAvgCentroid p) with
      | some id1 => ((List.range p.length).set 1 id1).set id1 1
      | none => List.range p.length) = List.range p.length := by
    rw [polyReorderFirstSeg_convex p h3 hconv]
    show ((List.range p.length).set 1 1).set 1 1 = List.range p.length
    rw [range_set_one p.length (by omega), range_set_one p.length (by omega)]
  have hm : (List.range p.length).map
        (fun i => p.getD ((List.range p.length).getD i 0) default)
      = (List.range p.length).map (fun i => p.getD i default) :=
    List.map_congr_left (fun i hi => by
      rw [getD_range p.length i (List.mem_range.mp hi)])
  simp only [PolyReorder]
  rw [if_neg (by omega : ¬p.length < 3)]
  simp only [hids1, polyReorder_fold_id p hconv]
  rw [hm]
  exact map_getD_self p

/-- Witness for C7: the CCW unit square is returned unchanged. -/
theorem C7_polyReorder_identity_on_ccw_convex_witness :
    (3 ≤ sqA.length ∧ (∀ k, k < sqA.length → ∀ j, j < k → ∀ l, l < j →
      0 < crossP (psub (sqA.getD j default) (sqA.getD l default))
        (psub (sqA.getD k default) (sqA.getD l default)))) ∧
    PolyReorder sqA = sqA :=
  ⟨⟨by decide, by decide⟩,
    C7_polyReorder_identity_on_ccw_convex sqA (by decide) (by decide)⟩

end Tribol
